import Mathlib

/-!
# FluidX12 : the `Fluid` simulator (Content/Fluid.cpp)

A shallow embedding of `Fluid::Init`, `Fluid::UpdateFrame`, `Fluid::Simulate`,
`Fluid::Render` and the private helpers they call.

Conventions of the embedding
* `float` times are exact rationals (`ℚ`); unsigned integers are `Nat`.
* The command list is an explicit list of recorded `Command`s.
* Every GPU object the class owns is a component of the state `Fluid`.
* Fallible library calls are answered by a boolean oracle on `Step`s.
* The matrix payload of the per-object constant buffer is floating-point
  linear algebra and is not represented; the model keeps which layout was
  written to which frame slot.
-/

namespace FluidX12

/-! ## Data model -/

/-- Three unsigned extents (`DirectX::XMUINT3`). -/
structure XMUINT3 where
  x : Nat
  y : Nat
  z : Nat
deriving DecidableEq, Repr

/-- The per-frame constants (`struct CBPerFrame`). -/
structure CBPerFrame where
  TimeStep : ℚ
  BaseSeed : Nat
deriving DecidableEq, Repr

/-- The two element types the per-object constant buffer is created for
(`CBPerObjectParticle`, `CBPerObjectGrid3D`). -/
inductive PerObjectLayout where
  | Particle
  | Grid3D
deriving DecidableEq, Repr

/-- The per-object constant buffer: the layout it was sized for at creation and,
per frame slot, the layout of the record last written by `UpdateFrame`. -/
structure ConstantBufferPerObject where
  layout : PerObjectLayout
  written : Nat → Option PerObjectLayout

/-- One particle record (`ParticleInfo`): position and lifetime. -/
structure ParticleInfo where
  Pos : ℚ × ℚ × ℚ
  LifeTime : ℚ
deriving DecidableEq, Repr

/-- The largest finite `float`. -/
def FLT_MAX : ℚ := (2 ^ 24 - 1) * 2 ^ 104

/-- The GPU resources whose state the simulator tracks. -/
inductive Resource where
  | velocities (i : Nat)
  | colors (i : Nat)
  | incompress
  | particleBuffer
deriving DecidableEq, Repr

/-- Resource states are bit flags; the values are those of the D3D12 states of
the same names. Only equality of states is ever tested. -/
abbrev ResourceState := Nat

def ResourceState.COMMON : ResourceState := 0
def ResourceState.UNORDERED_ACCESS : ResourceState := 0x8
def ResourceState.NON_PIXEL_SHADER_RESOURCE : ResourceState := 0x40
def ResourceState.PIXEL_SHADER_RESOURCE : ResourceState := 0x80

/-- One state transition written into a barrier array. -/
structure ResourceBarrier where
  resource : Resource
  stateBefore : ResourceState
  stateAfter : ResourceState
deriving DecidableEq, Repr

/-- A view of a resource placed in a binding table. -/
inductive Descriptor where
  | SRV (r : Resource)
  | UAV (r : Resource)
deriving DecidableEq, Repr

inductive SamplerPreset where
  | LINEAR_MIRROR
  | LINEAR_CLAMP
deriving DecidableEq, Repr

/-- A binding table handle: either a table of resource views or a sampler table. -/
inductive DescriptorTable where
  | CbvSrvUav (descriptors : List Descriptor)
  | Sampler (preset : SamplerPreset)
deriving DecidableEq, Repr

/-- Index into `m_pipelineLayouts` / `m_pipelines`. -/
inductive PipelineIndex where
  | ADVECT
  | PROJECT
  | VISUALIZE
deriving DecidableEq, Repr

/-- The debug names passed to `GetPipelineLayout`. -/
inductive LayoutName where
  | AdvectionLayout
  | ProjectionLayout
  | ParticleLayout
  | RayCastingLayout
  | VisualizationLayout
deriving DecidableEq, Repr

/-- The debug names passed to `GetPipeline`. -/
inductive PipelineName where
  | Advection
  | Projection
  | Particle
  | RayCasting
  | Visualization
deriving DecidableEq, Repr

inductive ShaderStage where
  | VS
  | HS
  | DS
  | PS
  | CS
deriving DecidableEq, Repr

/-- The compiled shader files loaded by `createPipelines`. -/
inductive ShaderFile where
  | CSAdvect
  | CSProject3D
  | CSProject2D
  | VSParticle
  | HSParticle
  | DSParticle
  | PSParticle
  | VSScreenQuad
  | PSRayCast
  | PSVisualizeColor
deriving DecidableEq, Repr

/-- The numeric values of the binding-table enumerators. The enumerations are
declared in `Fluid.h`; the code only relies on their names and on adding the
parity to `SRV_UAV_TABLE_COLOR` and a loop index to `SRV_UAV_TABLE_VECOLITY`,
so the values are parameters of the model. -/
structure TableEnum where
  SRV_UAV_TABLE_VECOLITY : Nat
  SRV_UAV_TABLE_VECOLITY1 : Nat
  SRV_UAV_TABLE_COLOR : Nat
  UAV_TABLE_INCOMPRESS : Nat
  UAV_SRV_TABLE_PARTICLE : Nat
  SAMPLER_TABLE_MIRROR : Nat
  SAMPLER_TABLE_CLAMP : Nat
deriving DecidableEq, Repr

/-- The constant buffers a root CBV can point into. -/
inductive BufferId where
  | cbPerFrame
  | cbPerObject
deriving DecidableEq, Repr

inductive PrimitiveTopology where
  | TRIANGLELIST
  | CONTROL_POINT1_PATCHLIST
deriving DecidableEq, Repr

/-- The commands the simulator records into the caller's command list. A
`Barrier` carries the count and the first `numBarriers` entries of the array.
Binding commands carry the object stored in the member array at record time. -/
inductive Command where
  | Barrier (numBarriers : Nat) (barriers : List (Option ResourceBarrier))
  | SetComputePipelineLayout (layout : Option LayoutName)
  | SetGraphicsPipelineLayout (layout : Option LayoutName)
  | SetPipelineState (pipeline : Option PipelineName)
  | SetComputeRootConstantBufferView (index : Nat) (buffer : BufferId) (slot : Nat)
  | SetGraphicsRootConstantBufferView (index : Nat) (buffer : BufferId) (slot : Nat)
  | SetComputeDescriptorTable (index : Nat) (table : Option DescriptorTable)
  | SetGraphicsDescriptorTable (index : Nat) (table : Option DescriptorTable)
  | IASetPrimitiveTopology (topology : PrimitiveTopology)
  | Dispatch (x : Nat) (y : Nat) (z : Nat)
  | Draw (vertexCount : Nat) (instanceCount : Nat) (startVertex : Nat) (startInstance : Nat)
deriving DecidableEq, Repr

/-- The particle buffer: element count fixed at creation, contents once uploaded. -/
structure StructuredBuffer where
  numElements : Nat
  data : Option (List ParticleInfo)

/-- The members of `class Fluid` that the modelled methods read or write.
`m_states r` is the state tracked inside resource object `r`. -/
structure Fluid where
  m_gridSize : XMUINT3
  m_numParticles : Nat
  m_viewport : Nat × Nat
  m_timeInterval : ℚ
  m_timeStep : ℚ
  m_frameParity : Nat
  m_created : Resource → Bool
  m_states : Resource → ResourceState
  m_cbPerFrame : Nat → Option CBPerFrame
  m_cbPerObject : Option ConstantBufferPerObject
  m_particleBuffer : Option StructuredBuffer
  m_pipelineLayouts : PipelineIndex → Option LayoutName
  m_pipelines : PipelineIndex → Option PipelineName
  m_srvUavTables : Nat → Option DescriptorTable
  m_samplerTables : Nat → Option DescriptorTable

set_option linter.dupNamespace false in
/-- The constructor `Fluid::Fluid`: the accumulator and the parity start at 0,
the smart pointers and handle arrays are empty; `uninit` supplies the values of
the members the constructor leaves indeterminate. -/
def Fluid.Fluid (uninit : Fluid) : Fluid :=
  { uninit with
    m_timeInterval := 0
    m_frameParity := 0
    m_created := fun _ => false
    m_cbPerFrame := fun _ => none
    m_cbPerObject := none
    m_particleBuffer := none
    m_pipelineLayouts := fun _ => none
    m_pipelines := fun _ => none
    m_srvUavTables := fun _ => none
    m_samplerTables := fun _ => none }

/-- Logical negation of an unsigned value (`!x`). -/
def lnot (x : Nat) : Nat := if x = 0 then 1 else 0

/-- Modelled from the spec: the `DIV_UP(x, n)` macro is defined outside `src/`;
it is taken as ceiling division of unsigned integers. -/
def DIV_UP (x n : Nat) : Nat := (x + n - 1) / n

/-- Modelled from the spec: `Resource::SetBarrier(pBarriers, dstState, numBarriers)`
is library code outside `src/`. If the tracked state of the resource differs from
`dstState`, the transition is written at `pBarriers[numBarriers]`, the tracked
state is updated and `numBarriers + 1` is returned; otherwise nothing changes and
`numBarriers` is returned. The result is (tracked states, array, return value). -/
def SetBarrier (states : Resource → ResourceState) (r : Resource)
    (pBarriers : Nat → Option ResourceBarrier) (dstState : ResourceState) (numBarriers : Nat) :
    (Resource → ResourceState) × (Nat → Option ResourceBarrier) × Nat :=
  if states r ≠ dstState then
    (Function.update states r dstState,
     Function.update pBarriers numBarriers (some ⟨r, states r, dstState⟩),
     numBarriers + 1)
  else
    (states, pBarriers, numBarriers)

/-- The entries `pBarriers[0 .. numBarriers-1]` handed to `CommandList::Barrier`. -/
def submitted (numBarriers : Nat) (pBarriers : Nat → Option ResourceBarrier) :
    List (Option ResourceBarrier) :=
  (List.range numBarriers).map pBarriers

/-! ## `Fluid::UpdateFrame` -/

/-- The per-object branch of `UpdateFrame`: the layout the mapped slot is written
through, if the method touches the per-object buffer at all. -/
def UpdateFrame_perObjectAccess (s : Fluid) : Option PerObjectLayout :=
  if s.m_numParticles > 0 then some .Particle
  else if s.m_gridSize.z > 1 then some .Grid3D
  else none

/-- `Fluid::UpdateFrame(timeStep, frameIndex, view, proj, eyePt)`; `baseSeed` is the
value returned by the call of `rand()`. A write through a null per-object buffer
is not represented (the buffer stays null). -/
def UpdateFrame (s : Fluid) (timeStep : ℚ) (frameIndex : Nat) (baseSeed : Nat) : Fluid :=
  let cbPerFrame := Function.update s.m_cbPerFrame frameIndex
    (some { TimeStep := timeStep, BaseSeed := baseSeed })
  let cbPerObject :=
    match UpdateFrame_perObjectAccess s with
    | some l => s.m_cbPerObject.map
        (fun b => { b with written := Function.update b.written frameIndex (some l) })
    | none => s.m_cbPerObject
  { s with
    m_cbPerFrame := cbPerFrame
    m_cbPerObject := cbPerObject
    m_timeStep := timeStep
    m_frameParity := if timeStep > 0 then lnot s.m_frameParity else s.m_frameParity }

/-! ## `Fluid::Simulate` -/

/-- The nominal step selected in the first line of `Simulate`. -/
def nominalStep (gridSize : XMUINT3) : ℚ :=
  if gridSize.z > 1 then 1 / 60 else 1 / 800

/-- The four lines of `Simulate` that run the accumulator: the result is the new
value of `m_timeInterval` and the final value of the local `timeStep`. -/
def Simulate_timeGate (gridSize : XMUINT3) (m_timeInterval m_timeStep : ℚ) : ℚ × ℚ :=
  let timeStep := nominalStep gridSize
  let m_timeInterval := if m_timeInterval > timeStep then 0 else m_timeInterval
  let m_timeInterval := m_timeInterval + m_timeStep
  let timeStep := if m_timeInterval < timeStep then 0 else timeStep
  (m_timeInterval, timeStep)

/-- What one call of `Simulate` produces: the new object state, the final value
of the local variable `timeStep`, and the recorded commands. The two barrier
batches are also given on their own. -/
structure SimulateResult where
  fluid : Fluid
  timeStep : ℚ
  commands : List Command
  advectBarriers : List (Option ResourceBarrier)
  projectBarriers : List (Option ResourceBarrier)

/-- `Fluid::Simulate(pCommandList, frameIndex)`. -/
def Simulate (E : TableEnum) (s : Fluid) (frameIndex : Nat) : SimulateResult :=
  let barriers : Nat → Option ResourceBarrier := fun _ => none
  let gate := Simulate_timeGate s.m_gridSize s.m_timeInterval s.m_timeStep
  -- Advection
  let b0 := SetBarrier s.m_states (.velocities 0) barriers
    ResourceState.NON_PIXEL_SHADER_RESOURCE 0
  let b1 := SetBarrier b0.1 (.velocities 1) b0.2.1 ResourceState.UNORDERED_ACCESS 0
  let b2 := SetBarrier b1.1 (.colors s.m_frameParity) b1.2.1
    ResourceState.UNORDERED_ACCESS b1.2.2
  let advectBarriers := submitted b2.2.2 b2.2.1
  let advect : List Command :=
    [ .Barrier b2.2.2 advectBarriers,
      .SetComputePipelineLayout (s.m_pipelineLayouts .ADVECT),
      .SetPipelineState (s.m_pipelines .ADVECT),
      .SetComputeRootConstantBufferView 0 .cbPerFrame frameIndex,
      .SetComputeDescriptorTable 1 (s.m_srvUavTables E.SRV_UAV_TABLE_VECOLITY),
      .SetComputeDescriptorTable 2 (s.m_samplerTables E.SAMPLER_TABLE_MIRROR),
      .SetComputeDescriptorTable 3
        (s.m_srvUavTables (E.SRV_UAV_TABLE_COLOR + s.m_frameParity)),
      .Dispatch (DIV_UP s.m_gridSize.x 8) (DIV_UP s.m_gridSize.y 8) s.m_gridSize.z ]
  -- Projection
  let c0 := SetBarrier b2.1 (.velocities 0) b2.2.1 ResourceState.UNORDERED_ACCESS 0
  let c1 := SetBarrier c0.1 (.velocities 1) c0.2.1
    ResourceState.NON_PIXEL_SHADER_RESOURCE c0.2.2
  let c2 := SetBarrier c1.1 (.colors s.m_frameParity) c1.2.1
    (ResourceState.NON_PIXEL_SHADER_RESOURCE ||| ResourceState.PIXEL_SHADER_RESOURCE) c1.2.2
  let projectBarriers := submitted c2.2.2 c2.2.1
  let numGroups : XMUINT3 :=
    if s.m_gridSize.z > 1 then
      ⟨DIV_UP s.m_gridSize.x 4, DIV_UP s.m_gridSize.y 4, DIV_UP s.m_gridSize.z 4⟩
    else
      ⟨DIV_UP s.m_gridSize.x 8, DIV_UP s.m_gridSize.y 8, s.m_gridSize.z⟩
  let project : List Command :=
    [ .Barrier c2.2.2 projectBarriers,
      .SetComputePipelineLayout (s.m_pipelineLayouts .PROJECT),
      .SetPipelineState (s.m_pipelines .PROJECT),
      .SetComputeRootConstantBufferView 0 .cbPerFrame frameIndex,
      .SetComputeDescriptorTable 1 (s.m_srvUavTables E.SRV_UAV_TABLE_VECOLITY1),
      .Dispatch numGroups.x numGroups.y numGroups.z ]
  { fluid := { s with m_timeInterval := gate.1, m_states := c2.1 }
    timeStep := gate.2
    commands := advect ++ project
    advectBarriers := advectBarriers
    projectBarriers := projectBarriers }

/-! ## `Fluid::Render` and the three presentation passes -/

/-- `Fluid::visualizeColor(pCommandList)`. -/
def visualizeColor (E : TableEnum) (s : Fluid) : Fluid × List Command :=
  (s,
   [ .SetGraphicsPipelineLayout (s.m_pipelineLayouts .VISUALIZE),
     .SetPipelineState (s.m_pipelines .VISUALIZE),
     .IASetPrimitiveTopology .TRIANGLELIST,
     .SetGraphicsDescriptorTable 0
       (s.m_srvUavTables (E.SRV_UAV_TABLE_COLOR + lnot s.m_frameParity)),
     .SetGraphicsDescriptorTable 1 (s.m_samplerTables E.SAMPLER_TABLE_CLAMP),
     .Draw 3 1 0 0 ])

/-- `Fluid::rayCast(pCommandList, frameIndex)`. -/
def rayCast (E : TableEnum) (s : Fluid) (frameIndex : Nat) : Fluid × List Command :=
  (s,
   [ .SetGraphicsPipelineLayout (s.m_pipelineLayouts .VISUALIZE),
     .SetPipelineState (s.m_pipelines .VISUALIZE),
     .IASetPrimitiveTopology .TRIANGLELIST,
     .SetGraphicsRootConstantBufferView 0 .cbPerObject frameIndex,
     .SetGraphicsDescriptorTable 1
       (s.m_srvUavTables (E.SRV_UAV_TABLE_COLOR + lnot s.m_frameParity)),
     .SetGraphicsDescriptorTable 2 (s.m_samplerTables E.SAMPLER_TABLE_CLAMP),
     .Draw 3 1 0 0 ])

/-- `Fluid::renderParticles(pCommandList, frameIndex)`. -/
def renderParticles (E : TableEnum) (s : Fluid) (frameIndex : Nat) : Fluid × List Command :=
  let b := SetBarrier s.m_states (.velocities 0) (fun _ => none)
    ResourceState.NON_PIXEL_SHADER_RESOURCE 0
  ({ s with m_states := b.1 },
   [ .Barrier b.2.2 (submitted b.2.2 b.2.1),
     .SetGraphicsPipelineLayout (s.m_pipelineLayouts .VISUALIZE),
     .SetPipelineState (s.m_pipelines .VISUALIZE),
     .IASetPrimitiveTopology .CONTROL_POINT1_PATCHLIST,
     .SetGraphicsRootConstantBufferView 0 .cbPerFrame frameIndex,
     .SetGraphicsRootConstantBufferView 1 .cbPerObject frameIndex,
     .SetGraphicsDescriptorTable 2 (s.m_srvUavTables E.UAV_SRV_TABLE_PARTICLE),
     .SetGraphicsDescriptorTable 3
       (s.m_srvUavTables (E.SRV_UAV_TABLE_COLOR + lnot s.m_frameParity)),
     .SetGraphicsDescriptorTable 4 (s.m_samplerTables E.SAMPLER_TABLE_CLAMP),
     .Draw s.m_numParticles 1 0 0 ])

/-- The three presentation passes `Render` can call. -/
inductive RenderPass where
  | renderParticles
  | rayCast
  | visualizeColor
deriving DecidableEq, Repr

/-- The branch taken by `Fluid::Render`. -/
def Render_pass (s : Fluid) : RenderPass :=
  if s.m_numParticles > 0 then .renderParticles
  else if s.m_gridSize.z > 1 then .rayCast
  else .visualizeColor

/-- `Fluid::Render(pCommandList, frameIndex)`. -/
def Render (E : TableEnum) (s : Fluid) (frameIndex : Nat) : Fluid × List Command :=
  if s.m_numParticles > 0 then renderParticles E s frameIndex
  else if s.m_gridSize.z > 1 then rayCast E s frameIndex
  else visualizeColor E s

/-! ## Reading a recorded command list -/

/-- The constant-buffer slot bound as compute root CBV 0 at each `Dispatch`, in
order of recording, together with the pipeline bound at that point and the
group counts. `cbv` and `pso` are the bindings in force before the list. -/
def dispatches (cbv : Option (BufferId × Nat)) (pso : Option PipelineName) :
    List Command → List (Option (BufferId × Nat) × Option PipelineName × Nat × Nat × Nat)
  | [] => []
  | .SetComputeRootConstantBufferView 0 b slot :: cs => dispatches (some (b, slot)) pso cs
  | .SetPipelineState p :: cs => dispatches cbv p cs
  | .Dispatch x y z :: cs => (cbv, pso, x, y, z) :: dispatches cbv pso cs
  | _ :: cs => dispatches cbv pso cs

/-- The `TimeStep` field a dispatch reads through its root CBV 0 when the per-frame
buffer holds the contents of state `s`. -/
def seenTimeStep (s : Fluid) : Option (BufferId × Nat) → Option ℚ
  | some (.cbPerFrame, slot) => (s.m_cbPerFrame slot).map (fun c => c.TimeStep)
  | _ => none

/-- The `TimeStep` constants seen by the dispatches of a command list, in order. -/
def dispatchedTimeSteps (s : Fluid) (cmds : List Command) : List (Option ℚ) :=
  (dispatches none none cmds).map (fun d => seenTimeStep s d.1)

/-- The calls a host can make on an initialised simulator. -/
inductive Call where
  | UpdateFrame (timeStep : ℚ) (frameIndex : Nat) (baseSeed : Nat)
  | Simulate (frameIndex : Nat)
  | Render (frameIndex : Nat)

/-- The state after one call. -/
def runCall (E : TableEnum) (s : Fluid) : Call → Fluid
  | .UpdateFrame t i seed => UpdateFrame s t i seed
  | .Simulate i => (Simulate E s i).fluid
  | .Render i => (Render E s i).1

/-- The state after a sequence of calls, first call first. -/
def runCalls (E : TableEnum) (s : Fluid) (calls : List Call) : Fluid :=
  calls.foldl (runCall E) s

/-- The number of `UpdateFrame` calls of a sequence that pass a positive time. -/
def positiveUpdates : List Call → Nat
  | [] => 0
  | .UpdateFrame t _ _ :: cs => (if t > 0 then 1 else 0) + positiveUpdates cs
  | _ :: cs => positiveUpdates cs

/-- Enumerator values used for concrete evaluations: the enumerators numbered
consecutively in the order the tables are created. -/
def TableEnum.consecutive : TableEnum :=
  { SRV_UAV_TABLE_VECOLITY := 0
    SRV_UAV_TABLE_VECOLITY1 := 1
    SRV_UAV_TABLE_COLOR := 2
    UAV_TABLE_INCOMPRESS := 4
    UAV_SRV_TABLE_PARTICLE := 5
    SAMPLER_TABLE_MIRROR := 0
    SAMPLER_TABLE_CLAMP := 1 }

/-- A blank object: every member zero or empty. -/
def Fluid.blank : FluidX12.Fluid :=
  { m_gridSize := ⟨0, 0, 0⟩
    m_numParticles := 0
    m_viewport := (0, 0)
    m_timeInterval := 0
    m_timeStep := 0
    m_frameParity := 0
    m_created := fun _ => false
    m_states := fun _ => ResourceState.COMMON
    m_cbPerFrame := fun _ => none
    m_cbPerObject := none
    m_particleBuffer := none
    m_pipelineLayouts := fun _ => none
    m_pipelines := fun _ => none
    m_srvUavTables := fun _ => none
    m_samplerTables := fun _ => none }

/-- A constructed object configured with a grid and a particle count, before any
resource is created (the first four assignments of `Init`). -/
def Fluid.configured (gridSize : XMUINT3) (numParticles : Nat) : FluidX12.Fluid :=
  { Fluid.Fluid Fluid.blank with m_gridSize := gridSize, m_numParticles := numParticles }

/-! ## `Fluid::Init` -/

/-- The fallible library calls made by `Init` and its helpers, identified by the
arguments that tell them apart. -/
inductive Step where
  | CreateTexture (r : Resource)
  | CreateConstantBuffer (b : BufferId) (layout : Option PerObjectLayout)
  | CreateStructuredBuffer (numElements : Nat)
  | Upload (numElements : Nat)
  | GetPipelineLayout (name : LayoutName)
  | CreateShader (stage : ShaderStage) (index : Nat) (file : ShaderFile)
  | GetPipeline (name : PipelineName)
  | GetCbvSrvUavTable (descriptors : List Descriptor)
  | GetSamplerTable (preset : SamplerPreset)
deriving DecidableEq, Repr

/-- The progress of one `Init` call: the object, the library calls made so far
(oldest first), the commands recorded so far and the number of uploaders pushed. -/
structure InitRun where
  fluid : Fluid
  trace : List Step
  commands : List Command
  uploaders : Nat

/-- A statement of a `bool` function: from the progress so far to `(true, _)` when
control falls through to the next statement, `(false, _)` when it returned false. -/
abbrev InitM := InitRun → Bool × InitRun

/-- Sequencing of two statements. -/
def InitM.seq (f g : InitM) : InitM := fun r =>
  match f r with
  | (true, r') => g r'
  | (false, r') => (false, r')

/-- The empty statement. -/
def InitM.skip : InitM := fun r => (true, r)

/-- A block of statements; control falls through its end. -/
def InitM.block : List InitM → InitM
  | [] => InitM.skip
  | f :: fs => InitM.seq f (InitM.block fs)

/-- An infallible statement. -/
def InitM.exec (f : InitRun → InitRun) : InitM := fun r => (true, f r)

/-- A statement that reads members of the object. -/
def InitM.read (k : Fluid → InitM) : InitM := fun r => k r.fluid r

/-- Modelled from the spec: the macro `N_RETURN(x, false)` is defined outside `src/`;
every initialization step is checked and short-circuits remaining setup. The call
`st` is made; when it fails the function returns false, otherwise its effect on
the object takes place and control goes on. -/
def N_RETURN (ok : Step → Bool) (st : Step) (effect : Fluid → Fluid) : InitM :=
  fun ⟨fluid, trace, commands, uploaders⟩ =>
    if ok st then (true, ⟨effect fluid, trace ++ [st], commands, uploaders⟩)
    else (false, ⟨fluid, trace ++ [st], commands, uploaders⟩)

/-- Modelled from the spec: the macro `X_RETURN(x, call, false)` is defined outside
`src/`; it stores the result of the call in `x` and returns false when the result
is null. -/
def X_RETURN {α : Type} (ok : Step → Bool) (st : Step) (store : Option α → Fluid → Fluid)
    (value : α) : InitM :=
  fun ⟨fluid, trace, commands, uploaders⟩ =>
    if ok st then (true, ⟨store (some value) fluid, trace ++ [st], commands, uploaders⟩)
    else (false, ⟨store none fluid, trace ++ [st], commands, uploaders⟩)

/-- A library call whose result the caller does not look at. -/
def unchecked (ok : Step → Bool) (st : Step) (effect : Fluid → Fluid) : InitM :=
  fun ⟨fluid, trace, commands, uploaders⟩ =>
    (true, ⟨if ok st then effect fluid else fluid, trace ++ [st], commands, uploaders⟩)

/-- Marks a resource as created, in the initial `COMMON` state. -/
def created (res : Resource) (s : Fluid) : Fluid :=
  { s with
    m_created := Function.update s.m_created res true
    m_states := Function.update s.m_states res ResourceState.COMMON }

def storeLayout (i : PipelineIndex) (l : Option LayoutName) (s : Fluid) : Fluid :=
  { s with m_pipelineLayouts := Function.update s.m_pipelineLayouts i l }

def storePipeline (i : PipelineIndex) (p : Option PipelineName) (s : Fluid) : Fluid :=
  { s with m_pipelines := Function.update s.m_pipelines i p }

def storeSrvUavTable (i : Nat) (t : Option DescriptorTable) (s : Fluid) : Fluid :=
  { s with m_srvUavTables := Function.update s.m_srvUavTables i t }

def storeSamplerTable (i : Nat) (t : Option DescriptorTable) (s : Fluid) : Fluid :=
  { s with m_samplerTables := Function.update s.m_samplerTables i t }

/-- The vector `particles` filled by the loop of `Init`; `rand k` is the value
returned by the `k`-th call of `rand()` (counting from 0). -/
def initParticles (rand : Nat → Nat) (numParticles : Nat) : List ParticleInfo :=
  (List.range numParticles).map fun k =>
    { Pos := (0, FLT_MAX, 0), LifeTime := ((rand k % numParticles : Nat) : ℚ) / 10000 }

/-- `Fluid::createPipelineLayouts()`. -/
def createPipelineLayouts (ok : Step → Bool) : InitM :=
  InitM.block
    [ X_RETURN ok (.GetPipelineLayout .AdvectionLayout) (storeLayout .ADVECT) .AdvectionLayout,
      X_RETURN ok (.GetPipelineLayout .ProjectionLayout) (storeLayout .PROJECT) .ProjectionLayout,
      InitM.read fun s =>
        if s.m_numParticles > 0 then
          X_RETURN ok (.GetPipelineLayout .ParticleLayout) (storeLayout .VISUALIZE)
            .ParticleLayout
        else if s.m_gridSize.z > 1 then
          X_RETURN ok (.GetPipelineLayout .RayCastingLayout) (storeLayout .VISUALIZE)
            .RayCastingLayout
        else
          X_RETURN ok (.GetPipelineLayout .VisualizationLayout) (storeLayout .VISUALIZE)
            .VisualizationLayout ]

/-- `Fluid::createPipelines(rtFormat, dsFormat)`; the formats only parameterise
the pipeline state and are not represented. The shader indices are the values of
`vsIndex`, `hsIndex`, `dsIndex`, `psIndex`, `csIndex` at each call. -/
def createPipelines (ok : Step → Bool) : InitM :=
  InitM.block
    [ N_RETURN ok (.CreateShader .CS 0 .CSAdvect) id,
      X_RETURN ok (.GetPipeline .Advection) (storePipeline .ADVECT) .Advection,
      InitM.read fun s =>
        N_RETURN ok (.CreateShader .CS 1
          (if s.m_gridSize.z > 1 then .CSProject3D else .CSProject2D)) id,
      X_RETURN ok (.GetPipeline .Projection) (storePipeline .PROJECT) .Projection,
      InitM.read fun s =>
        if s.m_numParticles > 0 then
          InitM.block
            [ N_RETURN ok (.CreateShader .VS 0 .VSParticle) id,
              N_RETURN ok (.CreateShader .HS 0 .HSParticle) id,
              N_RETURN ok (.CreateShader .DS 0 .DSParticle) id,
              N_RETURN ok (.CreateShader .PS 0 .PSParticle) id,
              X_RETURN ok (.GetPipeline .Particle) (storePipeline .VISUALIZE) .Particle ]
        else if s.m_gridSize.z > 1 then
          InitM.block
            [ N_RETURN ok (.CreateShader .VS 0 .VSScreenQuad) id,
              N_RETURN ok (.CreateShader .PS 0 .PSRayCast) id,
              X_RETURN ok (.GetPipeline .RayCasting) (storePipeline .VISUALIZE) .RayCasting ]
        else
          InitM.block
            [ N_RETURN ok (.CreateShader .VS 0 .VSScreenQuad) id,
              N_RETURN ok (.CreateShader .PS 0 .PSVisualizeColor) id,
              X_RETURN ok (.GetPipeline .Visualization) (storePipeline .VISUALIZE)
                .Visualization ] ]

/-- The descriptors of velocity table `i`. -/
def velocityDescriptors (i : Nat) : List Descriptor :=
  [ .SRV (.velocities i), .UAV (.velocities ((i + 1) % 2)) ]

/-- The descriptors of color table `i`. -/
def colorDescriptors (i : Nat) : List Descriptor :=
  [ .SRV (.colors ((i + 1) % 2)), .UAV (.colors i) ]

/-- `Fluid::createDescriptorTables()`. -/
def createDescriptorTables (E : TableEnum) (ok : Step → Bool) : InitM :=
  InitM.block
    [ InitM.read fun s =>
        if s.m_numParticles > 0 then
          X_RETURN ok (.GetCbvSrvUavTable [.UAV .particleBuffer])
            (storeSrvUavTable E.UAV_SRV_TABLE_PARTICLE) (.CbvSrvUav [.UAV .particleBuffer])
        else InitM.skip,
      X_RETURN ok (.GetCbvSrvUavTable (velocityDescriptors 0))
        (storeSrvUavTable (E.SRV_UAV_TABLE_VECOLITY + 0)) (.CbvSrvUav (velocityDescriptors 0)),
      X_RETURN ok (.GetCbvSrvUavTable (velocityDescriptors 1))
        (storeSrvUavTable (E.SRV_UAV_TABLE_VECOLITY + 1)) (.CbvSrvUav (velocityDescriptors 1)),
      X_RETURN ok (.GetCbvSrvUavTable [.UAV .incompress])
        (storeSrvUavTable E.UAV_TABLE_INCOMPRESS) (.CbvSrvUav [.UAV .incompress]),
      X_RETURN ok (.GetCbvSrvUavTable (colorDescriptors 0))
        (storeSrvUavTable (E.SRV_UAV_TABLE_COLOR + 0)) (.CbvSrvUav (colorDescriptors 0)),
      X_RETURN ok (.GetCbvSrvUavTable (colorDescriptors 1))
        (storeSrvUavTable (E.SRV_UAV_TABLE_COLOR + 1)) (.CbvSrvUav (colorDescriptors 1)),
      X_RETURN ok (.GetSamplerTable .LINEAR_MIRROR)
        (storeSamplerTable E.SAMPLER_TABLE_MIRROR) (.Sampler .LINEAR_MIRROR),
      X_RETURN ok (.GetSamplerTable .LINEAR_CLAMP)
        (storeSamplerTable E.SAMPLER_TABLE_CLAMP) (.Sampler .LINEAR_CLAMP) ]

/-- The four member assignments at the start of `Init`. -/
def Init_assign (s : Fluid) (width height : Nat) (gridSize : XMUINT3) (numParticles : Nat) :
    Fluid :=
  { s with
    m_viewport := (width, height)
    m_gridSize := gridSize
    m_numParticles := numParticles }

/-- The effect of creating the per-frame constant buffer: its slots are unwritten. -/
def createCbPerFrame (s : Fluid) : Fluid :=
  { s with m_cbPerFrame := fun _ => none }

/-- The effect of creating the per-object constant buffer for a layout. -/
def createCbPerObject (layout : PerObjectLayout) (s : Fluid) : Fluid :=
  { s with m_cbPerObject := some ⟨layout, fun _ => none⟩ }

/-- The effect of creating the particle buffer: `numParticles` elements, no contents. -/
def createParticleBuffer (numParticles : Nat) (s : Fluid) : Fluid :=
  created .particleBuffer { s with m_particleBuffer := some ⟨numParticles, none⟩ }

/-- The effect of a completed upload of `particles` into the particle buffer. -/
def uploadParticles (particles : List ParticleInfo) (s : Fluid) : Fluid :=
  { s with m_particleBuffer := s.m_particleBuffer.map fun b => { b with data := some particles } }

/-- The tracked states after `m_incompress->SetBarrier(&barrier, UNORDERED_ACCESS)`. -/
def incompressBarrier_fluid (s : Fluid) : Fluid :=
  { s with
    m_states := (SetBarrier s.m_states .incompress (fun _ => none)
      ResourceState.UNORDERED_ACCESS 0).1 }

/-- The `Barrier` command recorded for the scratch texture. -/
def incompressBarrier_command (s : Fluid) : Command :=
  let b := SetBarrier s.m_states .incompress (fun _ => none) ResourceState.UNORDERED_ACCESS 0
  .Barrier b.2.2 (submitted b.2.2 b.2.1)

/-- The barrier recorded for the scratch texture right after the constant buffers. -/
def incompressBarrier : InitRun → InitRun
  | ⟨fluid, trace, commands, uploaders⟩ =>
    ⟨incompressBarrier_fluid fluid, trace, commands ++ [incompressBarrier_command fluid],
      uploaders⟩

/-- `uploaders.emplace_back(Resource::MakeUnique())`. -/
def pushUploader : InitRun → InitRun
  | ⟨fluid, trace, commands, uploaders⟩ => ⟨fluid, trace, commands, uploaders + 1⟩

/-- The statements of `Fluid::Init` after the four member assignments. -/
def Init_body (E : TableEnum) (ok : Step → Bool) (rand : Nat → Nat) (numParticles : Nat) :
    InitM :=
  InitM.block
    [ -- Create resources
      N_RETURN ok (.CreateTexture (.velocities 0)) (created (.velocities 0)),
      N_RETURN ok (.CreateTexture (.colors 0)) (created (.colors 0)),
      N_RETURN ok (.CreateTexture (.velocities 1)) (created (.velocities 1)),
      N_RETURN ok (.CreateTexture (.colors 1)) (created (.colors 1)),
      N_RETURN ok (.CreateTexture .incompress) (created .incompress),
      -- Create constant buffers
      N_RETURN ok (.CreateConstantBuffer .cbPerFrame none) createCbPerFrame,
      InitM.read fun s =>
        if s.m_numParticles > 0 then
          N_RETURN ok (.CreateConstantBuffer .cbPerObject (some .Particle))
            (createCbPerObject .Particle)
        else if s.m_gridSize.z > 1 then
          N_RETURN ok (.CreateConstantBuffer .cbPerObject (some .Grid3D))
            (createCbPerObject .Grid3D)
        else InitM.skip,
      InitM.exec incompressBarrier,
      if numParticles > 0 then
        InitM.block
          [ N_RETURN ok (.CreateStructuredBuffer numParticles)
              (createParticleBuffer numParticles),
            InitM.exec pushUploader,
            unchecked ok (.Upload numParticles)
              (uploadParticles (initParticles rand numParticles)) ]
      else InitM.skip,
      -- Create pipelines
      createPipelineLayouts ok,
      createPipelines ok,
      createDescriptorTables E ok ]

/-- `Fluid::Init(pCommandList, width, height, descriptorTableCache, uploaders,
rtFormat, dsFormat, gridSize, numParticles)`: the boolean result and the progress
made. `ok` answers each fallible library call. -/
def Init (E : TableEnum) (ok : Step → Bool) (rand : Nat → Nat) (s : Fluid)
    (width height : Nat) (gridSize : XMUINT3) (numParticles : Nat) : Bool × InitRun :=
  Init_body E ok rand numParticles
    { fluid := Init_assign s width height gridSize numParticles
      trace := []
      commands := []
      uploaders := 0 }

/-- The graphics layout each presentation pass is drawn with. -/
def RenderPass.layout : RenderPass → LayoutName
  | .renderParticles => .ParticleLayout
  | .rayCast => .RayCastingLayout
  | .visualizeColor => .VisualizationLayout

/-- The graphics pipeline each presentation pass is drawn with. -/
def RenderPass.pipeline : RenderPass → PipelineName
  | .renderParticles => .Particle
  | .rayCast => .RayCasting
  | .visualizeColor => .Visualization

/-- The layouts used for drawing (the other two are compute layouts). -/
def LayoutName.isGraphics : LayoutName → Bool
  | .AdvectionLayout => false
  | .ProjectionLayout => false
  | .ParticleLayout => true
  | .RayCastingLayout => true
  | .VisualizationLayout => true

/-- The pipelines used for drawing (the other two are compute pipelines). -/
def PipelineName.isGraphics : PipelineName → Bool
  | .Advection => false
  | .Projection => false
  | .Particle => true
  | .RayCasting => true
  | .Visualization => true

/-- The layout a library call asks for, if it is a `GetPipelineLayout`. -/
def Step.layout? : Step → Option LayoutName
  | .GetPipelineLayout n => some n
  | _ => none

/-- The pipeline a library call asks for, if it is a `GetPipeline`. -/
def Step.pipeline? : Step → Option PipelineName
  | .GetPipeline n => some n
  | _ => none

/-- The graphics layouts among the library calls of a trace. -/
def graphicsLayouts (trace : List Step) : List LayoutName :=
  (trace.filterMap Step.layout?).filter LayoutName.isGraphics

/-- The graphics pipelines among the library calls of a trace. -/
def graphicsPipelines (trace : List Step) : List PipelineName :=
  (trace.filterMap Step.pipeline?).filter PipelineName.isGraphics

/-- The resource a binding table exposes for reading (its first SRV). -/
def readView : Option DescriptorTable → Option Resource
  | some (.CbvSrvUav ds) =>
      ds.findSome? fun d => match d with
        | .SRV r => some r
        | .UAV _ => none
  | _ => none

/-- The resource a binding table exposes for writing (its first UAV). -/
def writeView : Option DescriptorTable → Option Resource
  | some (.CbvSrvUav ds) =>
      ds.findSome? fun d => match d with
        | .UAV r => some r
        | .SRV _ => none
  | _ => none

/-- The tables bound for compute in a command list, with their root index. -/
def boundComputeTables : List Command → List (Nat × Option DescriptorTable)
  | [] => []
  | .SetComputeDescriptorTable k t :: cs => (k, t) :: boundComputeTables cs
  | _ :: cs => boundComputeTables cs

/-- The tables bound for drawing in a command list, with their root index. -/
def boundGraphicsTables : List Command → List (Nat × Option DescriptorTable)
  | [] => []
  | .SetGraphicsDescriptorTable k t :: cs => (k, t) :: boundGraphicsTables cs
  | _ :: cs => boundGraphicsTables cs

/-- The root parameter index at which each presentation pass binds the color table. -/
def RenderPass.colorRootIndex : RenderPass → Nat
  | .renderParticles => 3
  | .rayCast => 1
  | .visualizeColor => 0

/-- Whether the caller tests the result of a library call: every call of `Init` and
its helpers is wrapped in `N_RETURN` or `X_RETURN`, except the particle upload. -/
def Step.checked : Step → Bool
  | .Upload _ => false
  | _ => true

/-- The oracle under which every library call succeeds except the particle upload. -/
def uploadFails (st : Step) : Bool := st.checked

/-- Statement `f` never changes the component `π` of the object. -/
def Keeps {α : Type} (π : Fluid → α) (f : InitM) : Prop :=
  ∀ r, π (f r).2.fluid = π r.fluid

/-- All-or-nothing over the checked calls: the calls a statement adds to the trace
are such that, when it falls through, every checked call among them succeeded, and
when it returns false, the last call made is a checked call that failed and every
checked call before it succeeded. -/
def AllOrNothing (ok : Step → Bool) (f : InitM) : Prop :=
  ∀ r, ∃ new, (f r).2.trace = r.trace ++ new ∧
    ((f r).1 = true → ∀ st ∈ new, st.checked = true → ok st = true) ∧
    ((f r).1 = false → ∃ pre st, new = pre ++ [st] ∧ st.checked = true ∧ ok st = false ∧
      ∀ x ∈ pre, x.checked = true → ok x = true)

/-- An empty progress record around an object. -/
def InitRun.start (s : Fluid) : InitRun :=
  { fluid := s, trace := [], commands := [], uploaders := 0 }

/-- A volumetric grid without particles, freshly constructed. -/
def sample3D : Fluid := Fluid.configured ⟨64, 64, 64⟩ 0

/-- A 2D grid with particles, freshly constructed. -/
def sampleParticles : Fluid := Fluid.configured ⟨256, 256, 1⟩ 2000

/-- A 2D grid without particles, freshly constructed. -/
def sample2D : Fluid := Fluid.configured ⟨256, 256, 1⟩ 0

/-- A frame loop with two positive and one zero elapsed time. -/
def sampleCalls : List Call :=
  [ .UpdateFrame (1 / 100) 0 7, .Simulate 0, .Render 0,
    .UpdateFrame 0 1 8, .Simulate 1, .Render 1,
    .UpdateFrame (1 / 50) 2 9, .Simulate 2, .Render 2 ]

/-- The host's calls for frames in which no time elapses: for each pair
`(frameIndex, seed)`, `UpdateFrame(0, frameIndex)` (with `rand()` returning `seed`),
then `Simulate(frameIndex)`, then `Render(frameIndex)`. -/
def zeroFrameCalls : List (Nat × Nat) → List Call
  | [] => []
  | (j, seed) :: fs => .UpdateFrame 0 j seed :: .Simulate j :: .Render j :: zeroFrameCalls fs

/-- The table bound at compute root index 1 (the velocity pair) at each `Dispatch`
of a command list, in order. Setting a compute pipeline layout drops the bindings
made under the previous one. -/
def velocityTablesAtDispatch (bound : Option DescriptorTable) :
    List Command → List (Option DescriptorTable)
  | [] => []
  | .SetComputePipelineLayout _ :: cs => velocityTablesAtDispatch none cs
  | .SetComputeDescriptorTable 1 t :: cs => velocityTablesAtDispatch t cs
  | .Dispatch _ _ _ :: cs => bound :: velocityTablesAtDispatch bound cs
  | _ :: cs => velocityTablesAtDispatch bound cs

/-- The tracked states after the three `SetBarrier` calls of the advection block of
`Simulate`, that is, at the advection dispatch. -/
def Simulate_advectStates (s : Fluid) : Resource → ResourceState :=
  let b0 := SetBarrier s.m_states (.velocities 0) (fun _ => none)
    ResourceState.NON_PIXEL_SHADER_RESOURCE 0
  let b1 := SetBarrier b0.1 (.velocities 1) b0.2.1 ResourceState.UNORDERED_ACCESS 0
  let b2 := SetBarrier b1.1 (.colors s.m_frameParity) b1.2.1
    ResourceState.UNORDERED_ACCESS b1.2.2
  b2.1

/-- The slots of the two velocity tables are not reused by the tables that
`createDescriptorTables` stores after them (incompressibility and color). -/
def TableEnum.velocitySlotsFree (E : TableEnum) : Prop :=
  E.SRV_UAV_TABLE_VECOLITY ≠ E.UAV_TABLE_INCOMPRESS ∧
  E.SRV_UAV_TABLE_VECOLITY + 1 ≠ E.UAV_TABLE_INCOMPRESS ∧
  E.SRV_UAV_TABLE_VECOLITY ≠ E.SRV_UAV_TABLE_COLOR ∧
  E.SRV_UAV_TABLE_VECOLITY + 1 ≠ E.SRV_UAV_TABLE_COLOR ∧
  E.SRV_UAV_TABLE_VECOLITY ≠ E.SRV_UAV_TABLE_COLOR + 1

/-- A simulator whose binding tables were all built successfully on a fresh
64x64x64 object. -/
def sampleTables : Fluid :=
  (createDescriptorTables TableEnum.consecutive (fun _ => true) (InitRun.start sample3D)).2.fluid

/-- The element type through which each presentation pass reads the per-object
constant buffer, if it binds that buffer at all. -/
def RenderPass.perObjectLayout : RenderPass → Option PerObjectLayout
  | .renderParticles => some .Particle
  | .rayCast => some .Grid3D
  | .visualizeColor => none

/-- Whether a command list binds the per-object constant buffer. -/
def referencesPerObject : List Command → Bool
  | [] => false
  | .SetComputeRootConstantBufferView _ .cbPerObject _ :: _ => true
  | .SetGraphicsRootConstantBufferView _ .cbPerObject _ :: _ => true
  | _ :: cs => referencesPerObject cs

/-- Whether a list of descriptors holds a view of the particle buffer. -/
def viewsParticleBuffer (ds : List Descriptor) : Bool :=
  ds.any fun d => match d with
    | .SRV r => decide (r = .particleBuffer)
    | .UAV r => decide (r = .particleBuffer)

/-- Whether a binding table holds a view of the particle buffer. -/
def mentionsParticleBuffer : Option DescriptorTable → Bool
  | some (.CbvSrvUav ds) => viewsParticleBuffer ds
  | _ => false

/-- Whether a library call takes a view of the particle buffer. -/
def Step.mentionsParticleBuffer : Step → Bool
  | .GetCbvSrvUavTable ds => viewsParticleBuffer ds
  | _ => false

/-- No binding table of the object holds a view of the particle buffer. -/
def NoParticleViews (s : Fluid) : Prop :=
  (∀ idx, mentionsParticleBuffer (s.m_srvUavTables idx) = false) ∧
  (∀ idx, mentionsParticleBuffer (s.m_samplerTables idx) = false)

/-- Statement `f` maintains the property `P` of the object, in every outcome. -/
def Maintains (P : Fluid → Prop) (f : InitM) : Prop :=
  ∀ r, P r.fluid → P (f r).2.fluid

/-- The per-object constant buffer `Init` creates for a grid and a particle count:
the particle layout when there are particles, else the volumetric layout when the
grid is 3D, else none; no frame slot is written yet. -/
def Init_cbPerObject (gridSize : XMUINT3) (numParticles : Nat) :
    Option ConstantBufferPerObject :=
  if 0 < numParticles then some ⟨.Particle, fun _ => none⟩
  else if 1 < gridSize.z then some ⟨.Grid3D, fun _ => none⟩
  else none

/-- The members that decide which optional resource exists and which tables can be
bound: particle count, grid extent, layout of the per-object buffer (if created),
presence of the particle buffer, and the two table arrays. -/
def shape (s : Fluid) :
    Nat × XMUINT3 × Option PerObjectLayout × Bool ×
      (Nat → Option DescriptorTable) × (Nat → Option DescriptorTable) :=
  (s.m_numParticles, s.m_gridSize, s.m_cbPerObject.map (fun b => b.layout),
    s.m_particleBuffer.isSome, s.m_srvUavTables, s.m_samplerTables)

/-- Every frame slot of the per-object buffer that was written holds a record of the
layout the buffer was created for. -/
def WrittenWellTyped (s : Fluid) : Prop :=
  ∀ b, s.m_cbPerObject = some b → ∀ slot l, b.written slot = some l → l = b.layout

/-- The object after the constructor, `Init`, and then a sequence of per-frame calls. -/
def afterInit (E : TableEnum) (ok : Step → Bool) (rand : Nat → Nat) (u : Fluid)
    (width height : Nat) (gridSize : XMUINT3) (numParticles : Nat) (calls : List Call) :
    Fluid :=
  runCalls E (Init E ok rand (Fluid.Fluid u) width height gridSize numParticles).2.fluid calls

/-! ## The time gate -/

theorem nominalStep_pos (g : XMUINT3) : 0 < nominalStep g := by
  unfold nominalStep
  split <;> norm_num

theorem UpdateFrame_gridSize (s : Fluid) (t : ℚ) (i seed : Nat) :
    (UpdateFrame s t i seed).m_gridSize = s.m_gridSize := rfl

theorem UpdateFrame_timeInterval (s : Fluid) (t : ℚ) (i seed : Nat) :
    (UpdateFrame s t i seed).m_timeInterval = s.m_timeInterval := rfl

theorem UpdateFrame_timeStep (s : Fluid) (t : ℚ) (i seed : Nat) :
    (UpdateFrame s t i seed).m_timeStep = t := rfl

theorem Simulate_timeStep (E : TableEnum) (s : Fluid) (i : Nat) :
    (Simulate E s i).timeStep
      = (Simulate_timeGate s.m_gridSize s.m_timeInterval s.m_timeStep).2 := rfl

theorem Simulate_timeInterval (E : TableEnum) (s : Fluid) (i : Nat) :
    (Simulate E s i).fluid.m_timeInterval
      = (Simulate_timeGate s.m_gridSize s.m_timeInterval s.m_timeStep).1 := rfl

theorem Simulate_gridSize (E : TableEnum) (s : Fluid) (i : Nat) :
    (Simulate E s i).fluid.m_gridSize = s.m_gridSize := rfl

/-- The accumulator lines when the stored value does not exceed the nominal step. -/
theorem Simulate_timeGate_of_le (g : XMUINT3) (a e : ℚ) (ha : a ≤ nominalStep g) :
    Simulate_timeGate g a e
      = (a + e, if a + e < nominalStep g then 0 else nominalStep g) := by
  simp [Simulate_timeGate, not_lt.mpr ha]

/-- The accumulator lines when the stored value exceeds the nominal step. -/
theorem Simulate_timeGate_of_gt (g : XMUINT3) (a e : ℚ) (ha : nominalStep g < a) :
    Simulate_timeGate g a e = (e, if e < nominalStep g then 0 else nominalStep g) := by
  simp [Simulate_timeGate, ha]

/-- The per-frame slot bound by both dispatches of `Simulate` is slot `frameIndex`
of the per-frame buffer, whose `TimeStep` field `Simulate` never writes. -/
theorem Simulate_dispatchedTimeSteps (E : TableEnum) (s : Fluid) (i : Nat) :
    dispatchedTimeSteps (Simulate E s i).fluid (Simulate E s i).commands
      = [(s.m_cbPerFrame i).map (fun c => c.TimeStep),
         (s.m_cbPerFrame i).map (fun c => c.TimeStep)] := by
  simp [Simulate, dispatchedTimeSteps, dispatches, seenTimeStep]

/-- C1 (the code departs from the claim): after `UpdateFrame(t, i)`, both dispatches
recorded by `Simulate(i)` read `TimeStep = t`, the raw elapsed time, whatever the
accumulator computes. For a 64x64x64 grid and `t = 1/100` the gated step computed by
`Simulate` is 0 while the dispatches see 1/100, which is neither 0 nor 1/60. -/
theorem C1_dispatches_see_raw_elapsed_time :
    (∀ (E : TableEnum) (s : Fluid) (t : ℚ) (i seed : Nat),
      dispatchedTimeSteps (Simulate E (UpdateFrame s t i seed) i).fluid
        (Simulate E (UpdateFrame s t i seed) i).commands = [some t, some t]) ∧
    (Simulate TableEnum.consecutive
      (UpdateFrame (Fluid.configured ⟨64, 64, 64⟩ 0) (1 / 100) 0 7) 0).timeStep = 0 ∧
    dispatchedTimeSteps
      (Simulate TableEnum.consecutive
        (UpdateFrame (Fluid.configured ⟨64, 64, 64⟩ 0) (1 / 100) 0 7) 0).fluid
      (Simulate TableEnum.consecutive
        (UpdateFrame (Fluid.configured ⟨64, 64, 64⟩ 0) (1 / 100) 0 7) 0).commands
      = [some (1 / 100), some (1 / 100)] ∧
    (1 / 100 : ℚ) ≠ 0 ∧ (1 / 100 : ℚ) ≠ nominalStep ⟨64, 64, 64⟩ := by
  have h : ∀ (E : TableEnum) (s : Fluid) (t : ℚ) (i seed : Nat),
      dispatchedTimeSteps (Simulate E (UpdateFrame s t i seed) i).fluid
        (Simulate E (UpdateFrame s t i seed) i).commands = [some t, some t] := by
    intro E s t i seed
    rw [Simulate_dispatchedTimeSteps]
    simp [UpdateFrame]
  refine ⟨h, ?_, h _ _ _ _ _, by norm_num, by norm_num [nominalStep]⟩
  rw [Simulate_timeStep, UpdateFrame_gridSize, UpdateFrame_timeInterval, UpdateFrame_timeStep]
  rw [Simulate_timeGate_of_le]
  · norm_num [nominalStep, Fluid.configured, Fluid.Fluid]
  · norm_num [nominalStep, Fluid.configured, Fluid.Fluid]

/-- C2 (as stated, refuted): with an empty accumulator on a 64x64x64 grid and an
elapsed time of exactly 1/60, the accumulated time does not exceed the target,
yet the step computed by `Simulate` is 1/60, not 0. -/
theorem C2_counterexample_equal_to_target :
    (0 : ℚ) ≤ (Fluid.configured ⟨64, 64, 64⟩ 0).m_timeInterval ∧
    (Fluid.configured ⟨64, 64, 64⟩ 0).m_timeInterval ≤ nominalStep ⟨64, 64, 64⟩ ∧
    (0 : ℚ) ≤ 1 / 60 ∧
    (Fluid.configured ⟨64, 64, 64⟩ 0).m_timeInterval + 1 / 60 ≤ nominalStep ⟨64, 64, 64⟩ ∧
    (Simulate TableEnum.consecutive
      (UpdateFrame (Fluid.configured ⟨64, 64, 64⟩ 0) (1 / 60) 0 7) 0).timeStep = 1 / 60 ∧
    (Simulate TableEnum.consecutive
      (UpdateFrame (Fluid.configured ⟨64, 64, 64⟩ 0) (1 / 60) 0 7) 0).timeStep ≠ 0 := by
  have h : (Simulate TableEnum.consecutive
      (UpdateFrame (Fluid.configured ⟨64, 64, 64⟩ 0) (1 / 60) 0 7) 0).timeStep = 1 / 60 := by
    rw [Simulate_timeStep, UpdateFrame_gridSize, UpdateFrame_timeInterval,
      UpdateFrame_timeStep, Simulate_timeGate_of_le]
    · norm_num [nominalStep, Fluid.configured, Fluid.Fluid]
    · norm_num [nominalStep, Fluid.configured, Fluid.Fluid]
  refine ⟨?_, ?_, by norm_num, ?_, h, ?_⟩
  · simp [Fluid.configured, Fluid.Fluid]
  · norm_num [nominalStep, Fluid.configured, Fluid.Fluid]
  · norm_num [nominalStep, Fluid.configured, Fluid.Fluid]
  · rw [h]; norm_num

/-- C2 (amended): let `T` be the nominal step, `a` the stored accumulator with
`0 ≤ a ≤ T` and `e ≥ 0` the elapsed time last given to `UpdateFrame`. Whenever
`a + e ≤ T`, the accumulator stored by `Simulate` is `a + e` (preserved, not reset);
the computed step is 0 when `a + e < T` and is `T` when `a + e = T`. -/
theorem C2_below_threshold (E : TableEnum) (s : Fluid) (e : ℚ) (j seed i : Nat)
    (_ha0 : 0 ≤ s.m_timeInterval) (haT : s.m_timeInterval ≤ nominalStep s.m_gridSize)
    (_he : 0 ≤ e) (_h : s.m_timeInterval + e ≤ nominalStep s.m_gridSize) :
    (Simulate E (UpdateFrame s e j seed) i).fluid.m_timeInterval = s.m_timeInterval + e ∧
    (s.m_timeInterval + e < nominalStep s.m_gridSize →
      (Simulate E (UpdateFrame s e j seed) i).timeStep = 0) ∧
    (s.m_timeInterval + e = nominalStep s.m_gridSize →
      (Simulate E (UpdateFrame s e j seed) i).timeStep = nominalStep s.m_gridSize) := by
  rw [Simulate_timeStep, Simulate_timeInterval, UpdateFrame_gridSize, UpdateFrame_timeInterval,
    UpdateFrame_timeStep, Simulate_timeGate_of_le _ _ _ haT]
  refine ⟨rfl, fun hlt => by simp [hlt], fun heq => by simp [heq]⟩

/-- The below-threshold case on a fresh 64x64x64 simulator with an elapsed time of 1/100. -/
theorem C2_below_threshold_witness :
    (0 : ℚ) ≤ (Fluid.configured ⟨64, 64, 64⟩ 0).m_timeInterval ∧
    (Fluid.configured ⟨64, 64, 64⟩ 0).m_timeInterval ≤ nominalStep ⟨64, 64, 64⟩ ∧
    (0 : ℚ) ≤ 1 / 100 ∧
    (Fluid.configured ⟨64, 64, 64⟩ 0).m_timeInterval + 1 / 100 < nominalStep ⟨64, 64, 64⟩ ∧
    (Simulate TableEnum.consecutive
      (UpdateFrame (Fluid.configured ⟨64, 64, 64⟩ 0) (1 / 100) 0 7) 0).fluid.m_timeInterval
      = (Fluid.configured ⟨64, 64, 64⟩ 0).m_timeInterval + 1 / 100 ∧
    (Simulate TableEnum.consecutive
      (UpdateFrame (Fluid.configured ⟨64, 64, 64⟩ 0) (1 / 100) 0 7) 0).timeStep = 0 :=
  have h0 : (0 : ℚ) ≤ (Fluid.configured ⟨64, 64, 64⟩ 0).m_timeInterval := by
    simp [Fluid.configured, Fluid.Fluid]
  have hT : (Fluid.configured ⟨64, 64, 64⟩ 0).m_timeInterval ≤ nominalStep ⟨64, 64, 64⟩ := by
    norm_num [nominalStep, Fluid.configured, Fluid.Fluid]
  have he : (0 : ℚ) ≤ 1 / 100 := by norm_num
  have hlt : (Fluid.configured ⟨64, 64, 64⟩ 0).m_timeInterval + 1 / 100
      < nominalStep ⟨64, 64, 64⟩ := by
    norm_num [nominalStep, Fluid.configured, Fluid.Fluid]
  ⟨h0, hT, he, hlt,
    (C2_below_threshold TableEnum.consecutive (Fluid.configured ⟨64, 64, 64⟩ 0) (1 / 100) 0 7 0
      h0 hT he hlt.le).1,
    (C2_below_threshold TableEnum.consecutive (Fluid.configured ⟨64, 64, 64⟩ 0) (1 / 100) 0 7 0
      h0 hT he hlt.le).2.1 hlt⟩

/-- C3: let `T` be the nominal step, `a` the stored accumulator with `0 ≤ a ≤ T` and
`e ≥ 0` the elapsed time with `a + e > T`. Then `Simulate` computes the step `T`,
and in the next `UpdateFrame(e')` / `Simulate` pair the accumulator restarts from
zero: it holds exactly `e'` afterwards and the computed step is 0 whenever `e' < T`. -/
theorem C3_threshold_crossing (E : TableEnum) (s : Fluid) (e : ℚ) (j seed i : Nat)
    (_ha0 : 0 ≤ s.m_timeInterval) (haT : s.m_timeInterval ≤ nominalStep s.m_gridSize)
    (_he : 0 ≤ e) (h : nominalStep s.m_gridSize < s.m_timeInterval + e) :
    (Simulate E (UpdateFrame s e j seed) i).timeStep = nominalStep s.m_gridSize ∧
    ∀ (e' : ℚ) (j' seed' i' : Nat),
      (Simulate E (UpdateFrame (Simulate E (UpdateFrame s e j seed) i).fluid e' j' seed')
        i').fluid.m_timeInterval = e' ∧
      (e' < nominalStep s.m_gridSize →
        (Simulate E (UpdateFrame (Simulate E (UpdateFrame s e j seed) i).fluid e' j' seed')
          i').timeStep = 0) := by
  have h1 : (Simulate E (UpdateFrame s e j seed) i).fluid.m_timeInterval
      = s.m_timeInterval + e := by
    rw [Simulate_timeInterval, UpdateFrame_gridSize, UpdateFrame_timeInterval,
      UpdateFrame_timeStep, Simulate_timeGate_of_le _ _ _ haT]
  refine ⟨?_, fun e' j' seed' i' => ?_⟩
  · rw [Simulate_timeStep, UpdateFrame_gridSize, UpdateFrame_timeInterval,
      UpdateFrame_timeStep, Simulate_timeGate_of_le _ _ _ haT]
    simp [not_lt.mpr h.le]
  · rw [Simulate_timeStep, Simulate_timeInterval, UpdateFrame_gridSize,
      UpdateFrame_timeInterval, UpdateFrame_timeStep, Simulate_gridSize, UpdateFrame_gridSize,
      h1, Simulate_timeGate_of_gt _ _ _ h]
    exact ⟨rfl, fun hlt => by simp [hlt]⟩

/-- The crossing case on a fresh 64x64x64 simulator: 1/50 elapses, then 1/100. -/
theorem C3_threshold_crossing_witness :
    (0 : ℚ) ≤ (Fluid.configured ⟨64, 64, 64⟩ 0).m_timeInterval ∧
    (Fluid.configured ⟨64, 64, 64⟩ 0).m_timeInterval ≤ nominalStep ⟨64, 64, 64⟩ ∧
    (0 : ℚ) ≤ 1 / 50 ∧
    nominalStep ⟨64, 64, 64⟩ < (Fluid.configured ⟨64, 64, 64⟩ 0).m_timeInterval + 1 / 50 ∧
    (Simulate TableEnum.consecutive
      (UpdateFrame (Fluid.configured ⟨64, 64, 64⟩ 0) (1 / 50) 0 7) 0).timeStep = 1 / 60 ∧
    (Simulate TableEnum.consecutive
      (UpdateFrame (Simulate TableEnum.consecutive
        (UpdateFrame (Fluid.configured ⟨64, 64, 64⟩ 0) (1 / 50) 0 7) 0).fluid (1 / 100) 1 9)
        1).fluid.m_timeInterval = 1 / 100 ∧
    (Simulate TableEnum.consecutive
      (UpdateFrame (Simulate TableEnum.consecutive
        (UpdateFrame (Fluid.configured ⟨64, 64, 64⟩ 0) (1 / 50) 0 7) 0).fluid (1 / 100) 1 9)
        1).timeStep = 0 :=
  have h0 : (0 : ℚ) ≤ (Fluid.configured ⟨64, 64, 64⟩ 0).m_timeInterval := by
    simp [Fluid.configured, Fluid.Fluid]
  have hT : (Fluid.configured ⟨64, 64, 64⟩ 0).m_timeInterval ≤ nominalStep ⟨64, 64, 64⟩ := by
    norm_num [nominalStep, Fluid.configured, Fluid.Fluid]
  have he : (0 : ℚ) ≤ 1 / 50 := by norm_num
  have hgt : nominalStep ⟨64, 64, 64⟩
      < (Fluid.configured ⟨64, 64, 64⟩ 0).m_timeInterval + 1 / 50 := by
    norm_num [nominalStep, Fluid.configured, Fluid.Fluid]
  have hT60 : nominalStep ⟨64, 64, 64⟩ = 1 / 60 := by norm_num [nominalStep]
  have hlt : (1 / 100 : ℚ) < nominalStep ⟨64, 64, 64⟩ := by norm_num [nominalStep]
  ⟨h0, hT, he, hgt,
    ((C3_threshold_crossing TableEnum.consecutive (Fluid.configured ⟨64, 64, 64⟩ 0) (1 / 50)
      0 7 0 h0 hT he hgt).1).trans hT60,
    ((C3_threshold_crossing TableEnum.consecutive (Fluid.configured ⟨64, 64, 64⟩ 0) (1 / 50)
      0 7 0 h0 hT he hgt).2 (1 / 100) 1 9 1).1,
    ((C3_threshold_crossing TableEnum.consecutive (Fluid.configured ⟨64, 64, 64⟩ 0) (1 / 50)
      0 7 0 h0 hT he hgt).2 (1 / 100) 1 9 1).2 hlt⟩

/-! ## Frame parity -/

theorem lnot_lt_two (x : Nat) : lnot x < 2 := by
  unfold lnot
  split <;> omega

theorem Simulate_frameParity (E : TableEnum) (s : Fluid) (i : Nat) :
    (Simulate E s i).fluid.m_frameParity = s.m_frameParity := rfl

theorem Render_frameParity (E : TableEnum) (s : Fluid) (i : Nat) :
    (Render E s i).1.m_frameParity = s.m_frameParity := by
  unfold Render
  split
  · rfl
  · split <;> rfl

theorem UpdateFrame_frameParity (s : Fluid) (t : ℚ) (i seed : Nat) :
    (UpdateFrame s t i seed).m_frameParity
      = if t > 0 then lnot s.m_frameParity else s.m_frameParity := rfl

/-- The parity after a sequence of calls, from any state whose parity is a bit. -/
theorem runCalls_frameParity (E : TableEnum) (calls : List Call) :
    ∀ s : Fluid, s.m_frameParity < 2 →
      (runCalls E s calls).m_frameParity = (s.m_frameParity + positiveUpdates calls) % 2 := by
  induction calls with
  | nil => intro s hs; simp [runCalls, positiveUpdates, Nat.mod_eq_of_lt hs]
  | cons c cs ih =>
    intro s hs
    have step : runCalls E s (c :: cs) = runCalls E (runCall E s c) cs := rfl
    rw [step]
    cases c with
    | UpdateFrame t i seed =>
      by_cases ht : t > 0
      · have hp : (runCall E s (.UpdateFrame t i seed)).m_frameParity = lnot s.m_frameParity := by
          simp [runCall, UpdateFrame_frameParity, ht]
        rw [ih _ (by rw [hp]; exact lnot_lt_two _), hp]
        simp only [positiveUpdates, ht, if_true]
        unfold lnot
        split <;> omega
      · have hp : (runCall E s (.UpdateFrame t i seed)).m_frameParity = s.m_frameParity := by
          simp [runCall, UpdateFrame_frameParity, ht]
        rw [ih _ (by rw [hp]; exact hs), hp]
        simp [positiveUpdates, ht]
    | Simulate i =>
      have hp : (runCall E s (.Simulate i)).m_frameParity = s.m_frameParity := rfl
      rw [ih _ (by rw [hp]; exact hs), hp]
      simp [positiveUpdates]
    | Render i =>
      have hp : (runCall E s (.Render i)).m_frameParity = s.m_frameParity :=
        Render_frameParity E s i
      rw [ih _ (by rw [hp]; exact hs), hp]
      simp [positiveUpdates]

/-- C4: `UpdateFrame` flips the parity bit (0 to 1, 1 to 0) when the elapsed time is
positive and leaves it unchanged when it is 0; `Simulate` and `Render` never change
it. The constructor sets the parity to 0, and after any sequence of calls from a
state of parity 0 the parity is the number of `UpdateFrame` calls with positive
elapsed time, modulo 2. -/
theorem C4_frame_parity (E : TableEnum) (s : Fluid) (t : ℚ) (i seed : Nat) :
    (0 < t → s.m_frameParity = 0 → (UpdateFrame s t i seed).m_frameParity = 1) ∧
    (0 < t → s.m_frameParity = 1 → (UpdateFrame s t i seed).m_frameParity = 0) ∧
    (t = 0 → (UpdateFrame s t i seed).m_frameParity = s.m_frameParity) ∧
    (Simulate E s i).fluid.m_frameParity = s.m_frameParity ∧
    (Render E s i).1.m_frameParity = s.m_frameParity ∧
    (Fluid.Fluid s).m_frameParity = 0 ∧
    ∀ calls : List Call, s.m_frameParity = 0 →
      (runCalls E s calls).m_frameParity = positiveUpdates calls % 2 := by
  refine ⟨?_, ?_, ?_, rfl, Render_frameParity E s i, rfl, ?_⟩
  · intro ht h0
    simp [UpdateFrame_frameParity, ht, h0, lnot]
  · intro ht h1
    simp [UpdateFrame_frameParity, ht, h1, lnot]
  · intro ht
    simp [UpdateFrame_frameParity, ht]
  · intro calls h0
    rw [runCalls_frameParity E calls s (by omega), h0, Nat.zero_add]

/-- The parity along a three-frame loop on a fresh 2D simulator. -/
theorem C4_frame_parity_witness :
    (0 : ℚ) < 1 / 100 ∧ sample2D.m_frameParity = 0 ∧
    (UpdateFrame sample2D (1 / 100) 0 7).m_frameParity = 1 ∧
    (UpdateFrame (UpdateFrame sample2D (1 / 100) 0 7) (1 / 100) 1 8).m_frameParity = 0 ∧
    (UpdateFrame (UpdateFrame sample2D (1 / 100) 0 7) 0 1 8).m_frameParity = 1 ∧
    (runCalls TableEnum.consecutive sample2D sampleCalls).m_frameParity = 0 :=
  have ht : (0 : ℚ) < 1 / 100 := by norm_num
  have h0 : sample2D.m_frameParity = 0 := rfl
  have h1 : (UpdateFrame sample2D (1 / 100) 0 7).m_frameParity = 1 :=
    (C4_frame_parity TableEnum.consecutive sample2D (1 / 100) 0 7).1 ht h0
  have hc : positiveUpdates sampleCalls % 2 = 0 := by
    norm_num [positiveUpdates, sampleCalls]
  ⟨ht, h0, h1,
    (C4_frame_parity TableEnum.consecutive (UpdateFrame sample2D (1 / 100) 0 7)
      (1 / 100) 1 8).2.1 ht h1,
    ((C4_frame_parity TableEnum.consecutive (UpdateFrame sample2D (1 / 100) 0 7)
      0 1 8).2.2.1 rfl).trans h1,
    ((C4_frame_parity TableEnum.consecutive sample2D 0 0 0).2.2.2.2.2.2 sampleCalls h0).trans hc⟩

/-! ## Barriers recorded by `Simulate` -/

theorem UNORDERED_ACCESS_ne_NON_PIXEL :
    ResourceState.UNORDERED_ACCESS ≠ ResourceState.NON_PIXEL_SHADER_RESOURCE := by decide

theorem NON_PIXEL_ne_UNORDERED_ACCESS :
    ResourceState.NON_PIXEL_SHADER_RESOURCE ≠ ResourceState.UNORDERED_ACCESS := by decide

theorem UNORDERED_ACCESS_ne_SHADER_RESOURCE :
    ResourceState.UNORDERED_ACCESS
      ≠ ResourceState.NON_PIXEL_SHADER_RESOURCE ||| ResourceState.PIXEL_SHADER_RESOURCE := by
  decide

/-- The batch submitted before the advection dispatch: the transitions of
`velocities[1]` and of the active color buffer that `SetBarrier` found necessary,
in this order. The transition of `velocities[0]` is written at index 0 of the
array but the count returned for it is dropped, so it is overwritten or left
outside the submitted range. -/
theorem Simulate_advectBarriers (E : TableEnum) (s : Fluid) (i : Nat) :
    (Simulate E s i).advectBarriers
      = (if s.m_states (.velocities 1) ≠ ResourceState.UNORDERED_ACCESS then
          [some ⟨.velocities 1, s.m_states (.velocities 1), ResourceState.UNORDERED_ACCESS⟩]
         else []) ++
        (if s.m_states (.colors s.m_frameParity) ≠ ResourceState.UNORDERED_ACCESS then
          [some ⟨.colors s.m_frameParity, s.m_states (.colors s.m_frameParity),
            ResourceState.UNORDERED_ACCESS⟩]
         else []) := by
  simp only [Simulate, SetBarrier, submitted]
  by_cases h0 : s.m_states (.velocities 0) = ResourceState.NON_PIXEL_SHADER_RESOURCE <;>
  by_cases h1 : s.m_states (.velocities 1) = ResourceState.UNORDERED_ACCESS <;>
  by_cases h2 : s.m_states (.colors s.m_frameParity) = ResourceState.UNORDERED_ACCESS <;>
  simp [h0, h1, h2, Function.update_apply, List.range_succ]

/-- The batch submitted before the projection dispatch always holds the three
transitions out of the states the advection stage left behind. -/
theorem Simulate_projectBarriers (E : TableEnum) (s : Fluid) (i : Nat) :
    (Simulate E s i).projectBarriers
      = [ some ⟨.velocities 0, ResourceState.NON_PIXEL_SHADER_RESOURCE,
            ResourceState.UNORDERED_ACCESS⟩,
          some ⟨.velocities 1, ResourceState.UNORDERED_ACCESS,
            ResourceState.NON_PIXEL_SHADER_RESOURCE⟩,
          some ⟨.colors s.m_frameParity, ResourceState.UNORDERED_ACCESS,
            ResourceState.NON_PIXEL_SHADER_RESOURCE ||| ResourceState.PIXEL_SHADER_RESOURCE⟩ ] := by
  simp only [Simulate, SetBarrier, submitted]
  by_cases h0 : s.m_states (.velocities 0) = ResourceState.NON_PIXEL_SHADER_RESOURCE <;>
  by_cases h1 : s.m_states (.velocities 1) = ResourceState.UNORDERED_ACCESS <;>
  by_cases h2 : s.m_states (.colors s.m_frameParity) = ResourceState.UNORDERED_ACCESS <;>
  simp [h0, h1, h2, Function.update_apply, List.range_succ, UNORDERED_ACCESS_ne_NON_PIXEL,
    NON_PIXEL_ne_UNORDERED_ACCESS, UNORDERED_ACCESS_ne_SHADER_RESOURCE]

/-- C7 (as stated, refuted): on a freshly constructed 64x64x64 simulator the tracked
state of `velocities[0]` (`COMMON`) differs from the shader-readable state required
by advection, yet the batch submitted before the advection dispatch holds only the
transitions of `velocities[1]` and `colors[0]`: the required transition of
`velocities[0]` is not in it. -/
theorem C7_counterexample_velocity0_dropped :
    sample3D.m_states (.velocities 0) ≠ ResourceState.NON_PIXEL_SHADER_RESOURCE ∧
    (Simulate TableEnum.consecutive sample3D 0).advectBarriers
      = [ some ⟨.velocities 1, ResourceState.COMMON, ResourceState.UNORDERED_ACCESS⟩,
          some ⟨.colors 0, ResourceState.COMMON, ResourceState.UNORDERED_ACCESS⟩ ] ∧
    some ⟨.velocities 0, ResourceState.COMMON, ResourceState.NON_PIXEL_SHADER_RESOURCE⟩
      ∉ (Simulate TableEnum.consecutive sample3D 0).advectBarriers := by
  have hs : ∀ r, sample3D.m_states r = ResourceState.COMMON := fun _ => rfl
  have hp : sample3D.m_frameParity = 0 := rfl
  have hne : ResourceState.COMMON ≠ ResourceState.UNORDERED_ACCESS := by decide
  have hb : (Simulate TableEnum.consecutive sample3D 0).advectBarriers
      = [ some ⟨.velocities 1, ResourceState.COMMON, ResourceState.UNORDERED_ACCESS⟩,
          some ⟨.colors 0, ResourceState.COMMON, ResourceState.UNORDERED_ACCESS⟩ ] := by
    rw [Simulate_advectBarriers]
    simp [hs, hp, hne]
  refine ⟨?_, hb, ?_⟩
  · rw [hs]; decide
  · rw [hb]; simp

/-- C7 (amended): for every state, the batch submitted before the advection dispatch
contains the transition of `velocities[1]` to writable and of `colors[parity]` to
writable whenever the tracked state differs from it, and never a transition of
`velocities[0]` (its tracked state alone is set to shader-readable); the batch
submitted before the projection dispatch contains all three transitions:
`velocities[0]` to writable, `velocities[1]` to shader-readable and `colors[parity]`
to shader-readable. -/
theorem C7_barrier_batches (E : TableEnum) (s : Fluid) (i : Nat) :
    (s.m_states (.velocities 1) ≠ ResourceState.UNORDERED_ACCESS →
      some ⟨.velocities 1, s.m_states (.velocities 1), ResourceState.UNORDERED_ACCESS⟩
        ∈ (Simulate E s i).advectBarriers) ∧
    (s.m_states (.colors s.m_frameParity) ≠ ResourceState.UNORDERED_ACCESS →
      some ⟨.colors s.m_frameParity, s.m_states (.colors s.m_frameParity),
          ResourceState.UNORDERED_ACCESS⟩
        ∈ (Simulate E s i).advectBarriers) ∧
    (∀ x : ResourceBarrier, some x ∈ (Simulate E s i).advectBarriers →
      x.resource ≠ .velocities 0) ∧
    (Simulate E s i).projectBarriers
      = [ some ⟨.velocities 0, ResourceState.NON_PIXEL_SHADER_RESOURCE,
            ResourceState.UNORDERED_ACCESS⟩,
          some ⟨.velocities 1, ResourceState.UNORDERED_ACCESS,
            ResourceState.NON_PIXEL_SHADER_RESOURCE⟩,
          some ⟨.colors s.m_frameParity, ResourceState.UNORDERED_ACCESS,
            ResourceState.NON_PIXEL_SHADER_RESOURCE ||| ResourceState.PIXEL_SHADER_RESOURCE⟩ ] ∧
    (Simulate E s i).fluid.m_states (.velocities 0) = ResourceState.UNORDERED_ACCESS ∧
    (Simulate E s i).fluid.m_states (.velocities 1)
      = ResourceState.NON_PIXEL_SHADER_RESOURCE := by
  refine ⟨?_, ?_, ?_, Simulate_projectBarriers E s i, ?_, ?_⟩
  · intro h
    rw [Simulate_advectBarriers]
    simp [h]
  · intro h
    rw [Simulate_advectBarriers]
    simp [h]
  · intro x hx
    rw [Simulate_advectBarriers] at hx
    by_cases h1 : s.m_states (.velocities 1) = ResourceState.UNORDERED_ACCESS <;>
    by_cases h2 : s.m_states (.colors s.m_frameParity) = ResourceState.UNORDERED_ACCESS <;>
    simp [h1, h2] at hx
    · subst hx; simp
    · subst hx; simp
    · rcases hx with hx | hx <;> subst hx <;> simp
  · simp only [Simulate, SetBarrier]
    by_cases h0 : s.m_states (.velocities 0) = ResourceState.NON_PIXEL_SHADER_RESOURCE <;>
    by_cases h1 : s.m_states (.velocities 1) = ResourceState.UNORDERED_ACCESS <;>
    by_cases h2 : s.m_states (.colors s.m_frameParity) = ResourceState.UNORDERED_ACCESS <;>
    simp [h0, h1, h2, Function.update_apply, UNORDERED_ACCESS_ne_NON_PIXEL,
      NON_PIXEL_ne_UNORDERED_ACCESS, UNORDERED_ACCESS_ne_SHADER_RESOURCE]
  · simp only [Simulate, SetBarrier]
    by_cases h0 : s.m_states (.velocities 0) = ResourceState.NON_PIXEL_SHADER_RESOURCE <;>
    by_cases h1 : s.m_states (.velocities 1) = ResourceState.UNORDERED_ACCESS <;>
    by_cases h2 : s.m_states (.colors s.m_frameParity) = ResourceState.UNORDERED_ACCESS <;>
    simp [h0, h1, h2, Function.update_apply, UNORDERED_ACCESS_ne_NON_PIXEL,
      NON_PIXEL_ne_UNORDERED_ACCESS, UNORDERED_ACCESS_ne_SHADER_RESOURCE]

/-- The advection batch on a fresh 64x64x64 simulator, all resources in `COMMON`. -/
theorem C7_barrier_batches_witness :
    sample3D.m_states (.velocities 1) ≠ ResourceState.UNORDERED_ACCESS ∧
    sample3D.m_states (.colors sample3D.m_frameParity) ≠ ResourceState.UNORDERED_ACCESS ∧
    some ⟨.velocities 1, sample3D.m_states (.velocities 1), ResourceState.UNORDERED_ACCESS⟩
      ∈ (Simulate TableEnum.consecutive sample3D 0).advectBarriers ∧
    some ⟨.colors sample3D.m_frameParity, sample3D.m_states (.colors sample3D.m_frameParity),
        ResourceState.UNORDERED_ACCESS⟩
      ∈ (Simulate TableEnum.consecutive sample3D 0).advectBarriers :=
  have h1 : sample3D.m_states (.velocities 1) ≠ ResourceState.UNORDERED_ACCESS := by
    show ResourceState.COMMON ≠ ResourceState.UNORDERED_ACCESS
    decide
  have h2 : sample3D.m_states (.colors sample3D.m_frameParity)
      ≠ ResourceState.UNORDERED_ACCESS := by
    show ResourceState.COMMON ≠ ResourceState.UNORDERED_ACCESS
    decide
  ⟨h1, h2, (C7_barrier_batches TableEnum.consecutive sample3D 0).1 h1,
    (C7_barrier_batches TableEnum.consecutive sample3D 0).2.1 h2⟩

/-! ## Dispatch group counts -/

/-- `DIV_UP` is the ceiling of the exact quotient. -/
theorem DIV_UP_eq_ceil (x n : Nat) (hn : 0 < n) : DIV_UP x n = ⌈(x : ℚ) / (n : ℚ)⌉₊ := by
  have hnq : (0 : ℚ) < (n : ℚ) := by exact_mod_cast hn
  unfold DIV_UP
  apply le_antisymm
  · have hc : (x : ℚ) / n ≤ (⌈(x : ℚ) / (n : ℚ)⌉₊ : ℚ) := Nat.le_ceil _
    rw [div_le_iff₀ hnq] at hc
    have hc' : x ≤ ⌈(x : ℚ) / (n : ℚ)⌉₊ * n := by exact_mod_cast hc
    have : (x + n - 1) / n < ⌈(x : ℚ) / (n : ℚ)⌉₊ + 1 := by
      rw [Nat.div_lt_iff_lt_mul hn]
      rw [Nat.add_mul]
      omega
    omega
  · rw [Nat.ceil_le, div_le_iff₀ hnq]
    have h := Nat.div_add_mod (x + n - 1) n
    have hm := Nat.mod_lt (x + n - 1) hn
    have : x ≤ (x + n - 1) / n * n := by
      rw [Nat.mul_comm]
      omega
    exact_mod_cast this

theorem DIV_UP_8 (x : Nat) : DIV_UP x 8 = ⌈(x : ℚ) / 8⌉₊ := by
  have h := DIV_UP_eq_ceil x 8 (by norm_num)
  simpa using h

theorem DIV_UP_4 (x : Nat) : DIV_UP x 4 = ⌈(x : ℚ) / 4⌉₊ := by
  have h := DIV_UP_eq_ceil x 4 (by norm_num)
  simpa using h

/-- The dispatches recorded by one `Simulate` call, with the slot bound as root
CBV 0 and the pipeline bound at each. -/
theorem Simulate_dispatches (E : TableEnum) (s : Fluid) (i : Nat) :
    dispatches none none (Simulate E s i).commands
      = [ (some (.cbPerFrame, i), s.m_pipelines .ADVECT,
            DIV_UP s.m_gridSize.x 8, DIV_UP s.m_gridSize.y 8, s.m_gridSize.z),
          (some (.cbPerFrame, i), s.m_pipelines .PROJECT,
            if s.m_gridSize.z > 1 then
              (DIV_UP s.m_gridSize.x 4, DIV_UP s.m_gridSize.y 4, DIV_UP s.m_gridSize.z 4)
            else (DIV_UP s.m_gridSize.x 8, DIV_UP s.m_gridSize.y 8, s.m_gridSize.z)) ] := by
  by_cases hz : s.m_gridSize.z > 1 <;> simp [Simulate, dispatches, hz]

/-- C8: for every grid extent with all components at least 1, one `Simulate` call
records exactly two dispatches, first with the advection pipeline and then with the
projection pipeline; the advection group counts are `(⌈x/8⌉, ⌈y/8⌉, z)` and the
projection group counts are `(⌈x/4⌉, ⌈y/4⌉, ⌈z/4⌉)` when `z > 1` and
`(⌈x/8⌉, ⌈y/8⌉, 1)` when `z = 1`. -/
theorem C8_dispatch_group_counts (E : TableEnum) (s : Fluid) (i : Nat)
    (_hx : 1 ≤ s.m_gridSize.x) (_hy : 1 ≤ s.m_gridSize.y) (hz : 1 ≤ s.m_gridSize.z) :
    dispatches none none (Simulate E s i).commands
      = [ (some (.cbPerFrame, i), s.m_pipelines .ADVECT,
            ⌈(s.m_gridSize.x : ℚ) / 8⌉₊, ⌈(s.m_gridSize.y : ℚ) / 8⌉₊, s.m_gridSize.z),
          (some (.cbPerFrame, i), s.m_pipelines .PROJECT,
            if s.m_gridSize.z > 1 then
              (⌈(s.m_gridSize.x : ℚ) / 4⌉₊, ⌈(s.m_gridSize.y : ℚ) / 4⌉₊,
                ⌈(s.m_gridSize.z : ℚ) / 4⌉₊)
            else (⌈(s.m_gridSize.x : ℚ) / 8⌉₊, ⌈(s.m_gridSize.y : ℚ) / 8⌉₊, 1)) ] := by
  rw [Simulate_dispatches]
  by_cases h : s.m_gridSize.z > 1
  · simp only [h, if_true, DIV_UP_8, DIV_UP_4]
  · have h1 : s.m_gridSize.z = 1 := by omega
    rw [if_neg h, if_neg h]
    simp only [DIV_UP_8, h1]

/-- Group counts for the grids 64x64x64 and 256x256x1. -/
theorem C8_dispatch_group_counts_witness :
    (1 ≤ sample3D.m_gridSize.x ∧ 1 ≤ sample3D.m_gridSize.y ∧ 1 ≤ sample3D.m_gridSize.z) ∧
    dispatches none none (Simulate TableEnum.consecutive sample3D 0).commands
      = [ (some (.cbPerFrame, 0), none, 8, 8, 64), (some (.cbPerFrame, 0), none, 16, 16, 16) ] ∧
    (1 ≤ sampleParticles.m_gridSize.x ∧ 1 ≤ sampleParticles.m_gridSize.y ∧
      1 ≤ sampleParticles.m_gridSize.z) ∧
    dispatches none none (Simulate TableEnum.consecutive sampleParticles 0).commands
      = [ (some (.cbPerFrame, 0), none, 32, 32, 1), (some (.cbPerFrame, 0), none, 32, 32, 1) ] :=
  have c8 : (⌈(64 : ℚ) / 8⌉₊ = 8) := by
    rw [Nat.ceil_eq_iff (by norm_num)]; norm_num
  have c4 : (⌈(64 : ℚ) / 4⌉₊ = 16) := by
    rw [Nat.ceil_eq_iff (by norm_num)]; norm_num
  have c256 : (⌈(256 : ℚ) / 8⌉₊ = 32) := by
    rw [Nat.ceil_eq_iff (by norm_num)]; norm_num
  have a3 : 1 ≤ sample3D.m_gridSize.x ∧ 1 ≤ sample3D.m_gridSize.y ∧
      1 ≤ sample3D.m_gridSize.z := by decide
  have aP : 1 ≤ sampleParticles.m_gridSize.x ∧ 1 ≤ sampleParticles.m_gridSize.y ∧
      1 ≤ sampleParticles.m_gridSize.z := by decide
  ⟨a3,
    (C8_dispatch_group_counts TableEnum.consecutive sample3D 0 a3.1 a3.2.1 a3.2.2).trans
      (by simp [sample3D, Fluid.configured, Fluid.Fluid, c8, c4]),
    aP,
    (C8_dispatch_group_counts TableEnum.consecutive sampleParticles 0 aP.1 aP.2.1 aP.2.2).trans
      (by simp [sampleParticles, Fluid.configured, Fluid.Fluid, c256])⟩

/-! ## Stepping through `Init` -/

theorem storeLayout_numParticles (i : PipelineIndex) (l : Option LayoutName) (s : Fluid) :
    (storeLayout i l s).m_numParticles = s.m_numParticles := rfl

theorem storeLayout_gridSize (i : PipelineIndex) (l : Option LayoutName) (s : Fluid) :
    (storeLayout i l s).m_gridSize = s.m_gridSize := rfl

theorem storePipeline_numParticles (i : PipelineIndex) (l : Option PipelineName)
    (s : Fluid) : (storePipeline i l s).m_numParticles = s.m_numParticles := rfl

theorem storePipeline_gridSize (i : PipelineIndex) (l : Option PipelineName)
    (s : Fluid) : (storePipeline i l s).m_gridSize = s.m_gridSize := rfl

theorem seq_N_RETURN (ok : Step → Bool) (st : Step) (eff : Fluid → Fluid) (g : InitM)
    (r : InitRun) :
    InitM.seq (N_RETURN ok st eff) g r
      = if ok st then g { r with fluid := eff r.fluid, trace := r.trace ++ [st] }
        else (false, { r with trace := r.trace ++ [st] }) := by
  rcases r with ⟨fluid, trace, commands, uploaders⟩
  unfold InitM.seq N_RETURN
  split_ifs <;> rfl

theorem seq_X_RETURN {α : Type} (ok : Step → Bool) (st : Step)
    (store : Option α → Fluid → Fluid) (v : α) (g : InitM) (r : InitRun) :
    InitM.seq (X_RETURN ok st store v) g r
      = if ok st then g { r with fluid := store (some v) r.fluid, trace := r.trace ++ [st] }
        else (false, { r with fluid := store none r.fluid, trace := r.trace ++ [st] }) := by
  rcases r with ⟨fluid, trace, commands, uploaders⟩
  unfold InitM.seq X_RETURN
  split_ifs <;> rfl

theorem seq_unchecked (ok : Step → Bool) (st : Step) (eff : Fluid → Fluid) (g : InitM)
    (r : InitRun) :
    InitM.seq (unchecked ok st eff) g r
      = g { r with fluid := if ok st then eff r.fluid else r.fluid, trace := r.trace ++ [st] } :=
  rfl

theorem seq_exec (f : InitRun → InitRun) (g : InitM) (r : InitRun) :
    InitM.seq (InitM.exec f) g r = g (f r) := rfl

theorem seq_assoc (f g h : InitM) (r : InitRun) :
    InitM.seq (InitM.seq f g) h r = InitM.seq f (InitM.seq g h) r := by
  unfold InitM.seq
  rcases f r with ⟨b, r'⟩
  cases b <;> rfl

theorem seq_skip (g : InitM) (r : InitRun) : InitM.seq InitM.skip g r = g r := rfl

theorem seq_read (k : Fluid → InitM) (g : InitM) (r : InitRun) :
    InitM.seq (InitM.read k) g r = InitM.seq (k r.fluid) g r := rfl

theorem seq_ite (c : Prop) [Decidable c] (a b g : InitM) (r : InitRun) :
    InitM.seq (if c then a else b) g r = if c then InitM.seq a g r else InitM.seq b g r := by
  split_ifs <;> rfl

theorem skip_apply (r : InitRun) : InitM.skip r = (true, r) := rfl


/-! ## Presentation mode -/

theorem Render_eq (E : TableEnum) (s : Fluid) (i : Nat) :
    Render E s i
      = match Render_pass s with
        | .renderParticles => renderParticles E s i
        | .rayCast => rayCast E s i
        | .visualizeColor => visualizeColor E s := by
  unfold Render Render_pass
  split_ifs <;> rfl

/-- The layouts requested by `createPipelineLayouts`, in every outcome. -/
theorem createPipelineLayouts_graphics (ok : Step → Bool) (s : Fluid) :
    (∀ l ∈ graphicsLayouts (createPipelineLayouts ok (InitRun.start s)).2.trace,
      l = (Render_pass s).layout) ∧
    ((createPipelineLayouts ok (InitRun.start s)).1 = true →
      graphicsLayouts (createPipelineLayouts ok (InitRun.start s)).2.trace
        = [(Render_pass s).layout] ∧
      (createPipelineLayouts ok (InitRun.start s)).2.fluid.m_pipelineLayouts .VISUALIZE
        = some (Render_pass s).layout) := by
  generalize h : createPipelineLayouts ok (InitRun.start s) = res
  simp only [createPipelineLayouts, InitM.block, seq_X_RETURN, seq_ite, seq_skip, seq_read,
    skip_apply, InitRun.start, storeLayout_numParticles, storeLayout_gridSize,
    List.nil_append, List.cons_append, List.singleton_append] at h
  by_cases hn : s.m_numParticles > 0 <;> by_cases hz : s.m_gridSize.z > 1 <;>
  simp only [hn, hz, if_true, if_false] at h <;>
  split_ifs at h <;> subst h <;>
  simp [graphicsLayouts, Step.layout?, LayoutName.isGraphics, RenderPass.layout, storeLayout,
    Render_pass, hn, hz]

set_option maxHeartbeats 1000000 in
/-- The pipelines requested by `createPipelines`, in every outcome. -/
theorem createPipelines_graphics (ok : Step → Bool) (s : Fluid) :
    (∀ l ∈ graphicsPipelines (createPipelines ok (InitRun.start s)).2.trace,
      l = (Render_pass s).pipeline) ∧
    ((createPipelines ok (InitRun.start s)).1 = true →
      graphicsPipelines (createPipelines ok (InitRun.start s)).2.trace
        = [(Render_pass s).pipeline] ∧
      (createPipelines ok (InitRun.start s)).2.fluid.m_pipelines .VISUALIZE
        = some (Render_pass s).pipeline) := by
  generalize h : createPipelines ok (InitRun.start s) = res
  simp only [createPipelines, InitM.block, seq_N_RETURN, seq_X_RETURN, seq_assoc, seq_ite,
    seq_skip, seq_read, skip_apply, InitRun.start, storePipeline_numParticles,
    storePipeline_gridSize, id, List.nil_append, List.cons_append, List.singleton_append] at h
  by_cases hn : s.m_numParticles > 0 <;> by_cases hz : s.m_gridSize.z > 1 <;>
  simp only [hn, hz, if_true, if_false] at h <;>
  split_ifs at h <;> subst h <;>
  simp [graphicsPipelines, Step.pipeline?, PipelineName.isGraphics, RenderPass.pipeline,
    storePipeline, Render_pass, hn, hz]

/-- C5: `Render` calls the particle renderer iff `numParticles > 0`, the ray-caster
iff `numParticles = 0` and `z > 1`, and the 2D visualizer iff `numParticles = 0` and
`z = 1` (for `z ≥ 1`); it calls exactly the pass `Render_pass` names. Every graphics
layout requested by `createPipelineLayouts` and every graphics pipeline requested by
`createPipelines` is the one of that pass, and when the function succeeds exactly
that one was requested and it is the one stored in slot `VISUALIZE`. -/
theorem C5_presentation_mode (E : TableEnum) (ok : Step → Bool) (s : Fluid) (i : Nat) :
    (Render E s i
      = match Render_pass s with
        | .renderParticles => renderParticles E s i
        | .rayCast => rayCast E s i
        | .visualizeColor => visualizeColor E s) ∧
    (Render_pass s = .renderParticles ↔ s.m_numParticles > 0) ∧
    (Render_pass s = .rayCast ↔ s.m_numParticles = 0 ∧ s.m_gridSize.z > 1) ∧
    (1 ≤ s.m_gridSize.z →
      (Render_pass s = .visualizeColor ↔ s.m_numParticles = 0 ∧ s.m_gridSize.z = 1)) ∧
    (∀ l ∈ graphicsLayouts (createPipelineLayouts ok (InitRun.start s)).2.trace,
      l = (Render_pass s).layout) ∧
    ((createPipelineLayouts ok (InitRun.start s)).1 = true →
      graphicsLayouts (createPipelineLayouts ok (InitRun.start s)).2.trace
        = [(Render_pass s).layout] ∧
      (createPipelineLayouts ok (InitRun.start s)).2.fluid.m_pipelineLayouts .VISUALIZE
        = some (Render_pass s).layout) ∧
    (∀ l ∈ graphicsPipelines (createPipelines ok (InitRun.start s)).2.trace,
      l = (Render_pass s).pipeline) ∧
    ((createPipelines ok (InitRun.start s)).1 = true →
      graphicsPipelines (createPipelines ok (InitRun.start s)).2.trace
        = [(Render_pass s).pipeline] ∧
      (createPipelines ok (InitRun.start s)).2.fluid.m_pipelines .VISUALIZE
        = some (Render_pass s).pipeline) := by
  refine ⟨Render_eq E s i, ?_, ?_, ?_, (createPipelineLayouts_graphics ok s).1,
    (createPipelineLayouts_graphics ok s).2, (createPipelines_graphics ok s).1,
    (createPipelines_graphics ok s).2⟩
  · unfold Render_pass
    split_ifs <;> simp_all
  · unfold Render_pass
    split_ifs with hn hz <;> simp_all
    all_goals omega
  · intro h1
    unfold Render_pass
    split_ifs with hn hz <;> simp_all
    all_goals omega


/-- The 2D visualizer and its layout and pipeline on a 256x256x1 grid without particles. -/
theorem C5_presentation_mode_witness :
    1 ≤ sample2D.m_gridSize.z ∧
    (Render_pass sample2D = .visualizeColor ↔
      sample2D.m_numParticles = 0 ∧ sample2D.m_gridSize.z = 1) ∧
    (createPipelineLayouts (fun _ => true) (InitRun.start sample2D)).1 = true ∧
    graphicsLayouts (createPipelineLayouts (fun _ => true) (InitRun.start sample2D)).2.trace
      = [(Render_pass sample2D).layout] ∧
    (createPipelines (fun _ => true) (InitRun.start sample2D)).1 = true ∧
    graphicsPipelines (createPipelines (fun _ => true) (InitRun.start sample2D)).2.trace
      = [(Render_pass sample2D).pipeline] :=
  have hz : 1 ≤ sample2D.m_gridSize.z := by decide
  have hl : (createPipelineLayouts (fun _ => true) (InitRun.start sample2D)).1 = true := rfl
  have hp : (createPipelines (fun _ => true) (InitRun.start sample2D)).1 = true := rfl
  ⟨hz, (C5_presentation_mode TableEnum.consecutive (fun _ => true) sample2D 0).2.2.2.1 hz, hl,
    ((C5_presentation_mode TableEnum.consecutive (fun _ => true) sample2D 0).2.2.2.2.2.1 hl).1,
    hp,
    ((C5_presentation_mode TableEnum.consecutive (fun _ => true) sample2D 0).2.2.2.2.2.2.2 hp).1⟩

/-! ## Binding tables -/

theorem Simulate_srvUavTables (E : TableEnum) (s : Fluid) (i : Nat) :
    (Simulate E s i).fluid.m_srvUavTables = s.m_srvUavTables := rfl

/-- After a successful `createDescriptorTables`, the two color table slots hold the
tables built in the last loop. -/
theorem createDescriptorTables_color (E : TableEnum) (ok : Step → Bool) (r : InitRun)
    (h : (createDescriptorTables E ok r).1 = true) (p : Nat) (hp : p < 2) :
    (createDescriptorTables E ok r).2.fluid.m_srvUavTables (E.SRV_UAV_TABLE_COLOR + p)
      = some (.CbvSrvUav (colorDescriptors p)) := by
  generalize h' : createDescriptorTables E ok r = res at h ⊢
  simp only [createDescriptorTables, InitM.block, seq_X_RETURN, seq_ite, seq_skip, seq_read,
    skip_apply] at h'
  by_cases hn : r.fluid.m_numParticles > 0 <;>
  simp only [hn, if_true, if_false] at h' <;>
  split_ifs at h' <;> subst h' <;> first
    | (simp at h; done)
    | (interval_cases p <;>
        simp [storeSrvUavTable, storeSamplerTable, Function.update_apply])


/-- The color table bound by the advection stage of `Simulate`. -/
theorem Simulate_boundComputeTables (E : TableEnum) (s : Fluid) (i : Nat) :
    boundComputeTables (Simulate E s i).commands
      = [ (1, s.m_srvUavTables E.SRV_UAV_TABLE_VECOLITY),
          (2, s.m_samplerTables E.SAMPLER_TABLE_MIRROR),
          (3, s.m_srvUavTables (E.SRV_UAV_TABLE_COLOR + s.m_frameParity)),
          (1, s.m_srvUavTables E.SRV_UAV_TABLE_VECOLITY1) ] := by
  simp [Simulate, boundComputeTables]

/-- The color table bound by the presentation pass. -/
theorem Render_colorTable (E : TableEnum) (s : Fluid) (i : Nat) (tbl : Option DescriptorTable) :
    ((Render_pass s).colorRootIndex, tbl) ∈ boundGraphicsTables (Render E s i).2
      ↔ tbl = s.m_srvUavTables (E.SRV_UAV_TABLE_COLOR + lnot s.m_frameParity) := by
  unfold Render Render_pass
  split_ifs <;>
  simp [renderParticles, rayCast, visualizeColor, boundGraphicsTables,
    RenderPass.colorRootIndex]

/-- C6: after a successful `createDescriptorTables`, color table `p` (`p` = 0 or 1)
is (read view `colors[(p+1) mod 2]`, write view `colors[p]`). The buffer written
through table `p` is the buffer read through the table selected after flipping the
parity to `!p`, and differs from the buffer read through table `p`. In a frame of
parity `p`, the table advection binds at root index 3 writes `colors[p]` and the
table the presentation pass binds reads `colors[p]`. -/
theorem C6_color_round_trip (E : TableEnum) (ok : Step → Bool) (r : InitRun)
    (h : (createDescriptorTables E ok r).1 = true) (p : Nat) (hp : p < 2) :
    (createDescriptorTables E ok r).2.fluid.m_srvUavTables (E.SRV_UAV_TABLE_COLOR + p)
      = some (.CbvSrvUav [.SRV (.colors ((p + 1) % 2)), .UAV (.colors p)]) ∧
    writeView ((createDescriptorTables E ok r).2.fluid.m_srvUavTables
      (E.SRV_UAV_TABLE_COLOR + p)) = some (.colors p) ∧
    readView ((createDescriptorTables E ok r).2.fluid.m_srvUavTables
      (E.SRV_UAV_TABLE_COLOR + lnot p)) = some (.colors p) ∧
    readView ((createDescriptorTables E ok r).2.fluid.m_srvUavTables
      (E.SRV_UAV_TABLE_COLOR + p)) ≠ some (.colors p) ∧
    ∀ (t : Fluid) (i : Nat),
      t.m_srvUavTables = (createDescriptorTables E ok r).2.fluid.m_srvUavTables →
      t.m_frameParity = p →
      (∀ tbl, (3, tbl) ∈ boundComputeTables (Simulate E t i).commands →
        writeView tbl = some (.colors p)) ∧
      (∃ tbl, (3, tbl) ∈ boundComputeTables (Simulate E t i).commands) ∧
      (∀ tbl, ((Render_pass t).colorRootIndex, tbl)
          ∈ boundGraphicsTables (Render E (Simulate E t i).fluid i).2 →
        readView tbl = some (.colors p)) ∧
      (∃ tbl, ((Render_pass t).colorRootIndex, tbl)
          ∈ boundGraphicsTables (Render E (Simulate E t i).fluid i).2) := by
  have hq : lnot p < 2 := lnot_lt_two p
  have hc := createDescriptorTables_color E ok r h p hp
  have hc' := createDescriptorTables_color E ok r h (lnot p) hq
  have hw : writeView ((createDescriptorTables E ok r).2.fluid.m_srvUavTables
      (E.SRV_UAV_TABLE_COLOR + p)) = some (.colors p) := by
    rw [hc]; rfl
  have hr : readView ((createDescriptorTables E ok r).2.fluid.m_srvUavTables
      (E.SRV_UAV_TABLE_COLOR + lnot p)) = some (.colors p) := by
    rw [hc']
    interval_cases p <;> rfl
  refine ⟨hc, hw, hr, ?_, ?_⟩
  · rw [hc]
    interval_cases p <;> simp [readView, colorDescriptors]
  · intro t i ht hpar
    have hpass : Render_pass (Simulate E t i).fluid = Render_pass t := rfl
    refine ⟨?_, ?_, ?_, ?_⟩
    · intro tbl hmem
      rw [Simulate_boundComputeTables] at hmem
      simp at hmem
      rw [hmem, ht, hpar]
      exact hw
    · exact ⟨t.m_srvUavTables (E.SRV_UAV_TABLE_COLOR + t.m_frameParity), by
        rw [Simulate_boundComputeTables]; simp⟩
    · intro tbl hmem
      rw [← hpass, Render_colorTable] at hmem
      rw [hmem, Simulate_srvUavTables, Simulate_frameParity, ht, hpar]
      exact hr
    · exact ⟨_, by rw [← hpass, Render_colorTable]⟩


/-- Color table 0 after a fully successful table construction. -/
theorem C6_color_round_trip_witness :
    (createDescriptorTables TableEnum.consecutive (fun _ => true) (InitRun.start sample2D)).1
      = true ∧
    (0 : Nat) < 2 ∧
    (createDescriptorTables TableEnum.consecutive (fun _ => true)
        (InitRun.start sample2D)).2.fluid.m_srvUavTables
        (TableEnum.consecutive.SRV_UAV_TABLE_COLOR + 0)
      = some (.CbvSrvUav [.SRV (.colors ((0 + 1) % 2)), .UAV (.colors 0)]) ∧
    writeView ((createDescriptorTables TableEnum.consecutive (fun _ => true)
        (InitRun.start sample2D)).2.fluid.m_srvUavTables
        (TableEnum.consecutive.SRV_UAV_TABLE_COLOR + 0)) = some (.colors 0) ∧
    readView ((createDescriptorTables TableEnum.consecutive (fun _ => true)
        (InitRun.start sample2D)).2.fluid.m_srvUavTables
        (TableEnum.consecutive.SRV_UAV_TABLE_COLOR + lnot 0)) = some (.colors 0) :=
  have h : (createDescriptorTables TableEnum.consecutive (fun _ => true)
      (InitRun.start sample2D)).1 = true := rfl
  have hp : (0 : Nat) < 2 := by decide
  ⟨h, hp,
    (C6_color_round_trip TableEnum.consecutive (fun _ => true) (InitRun.start sample2D)
      h 0 hp).1,
    (C6_color_round_trip TableEnum.consecutive (fun _ => true) (InitRun.start sample2D)
      h 0 hp).2.1,
    (C6_color_round_trip TableEnum.consecutive (fun _ => true) (InitRun.start sample2D)
      h 0 hp).2.2.1⟩

/-! ## Particle initialisation -/

theorem initParticles_length (rand : Nat → Nat) (n : Nat) :
    (initParticles rand n).length = n := by
  simp [initParticles]

theorem initParticles_getElem? (rand : Nat → Nat) (n k : Nat) (hk : k < n) :
    (initParticles rand n)[k]?
      = some { Pos := (0, FLT_MAX, 0), LifeTime := ((rand k % n : Nat) : ℚ) / 10000 } := by
  simp [initParticles, List.getElem?_map, List.getElem?_range hk]

theorem initParticles_lifeTime (rand : Nat → Nat) (n : Nat) (hn : 0 < n)
    (p : ParticleInfo) (hp : p ∈ initParticles rand n) :
    0 ≤ p.LifeTime ∧ p.LifeTime < (n : ℚ) / 10000 := by
  simp only [initParticles, List.mem_map, List.mem_range] at hp
  obtain ⟨k, _, rfl⟩ := hp
  have hlt : rand k % n < n := Nat.mod_lt _ hn
  have hq : ((rand k % n : Nat) : ℚ) < (n : ℚ) := by exact_mod_cast hlt
  constructor
  · positivity
  · exact div_lt_div_of_pos_right hq (by norm_num)


theorem keeps_seq {α : Type} (π : Fluid → α) (f g : InitM) (hf : Keeps π f) (hg : Keeps π g) :
    Keeps π (InitM.seq f g) := by
  intro r
  have h1 := hf r
  unfold InitM.seq
  rcases hfr : f r with ⟨b, r'⟩
  rw [hfr] at h1
  cases b
  · exact h1
  · exact (hg r').trans h1

theorem keeps_skip {α : Type} (π : Fluid → α) : Keeps π InitM.skip := fun _ => rfl

theorem keeps_block_nil {α : Type} (π : Fluid → α) : Keeps π (InitM.block []) := fun _ => rfl

theorem keeps_block_cons {α : Type} (π : Fluid → α) (f : InitM) (fs : List InitM)
    (hf : Keeps π f) (hfs : Keeps π (InitM.block fs)) : Keeps π (InitM.block (f :: fs)) :=
  keeps_seq π f (InitM.block fs) hf hfs

theorem keeps_read {α : Type} (π : Fluid → α) (k : Fluid → InitM) (hk : ∀ s, Keeps π (k s)) :
    Keeps π (InitM.read k) := fun r => hk r.fluid r

theorem keeps_ite {α : Type} (π : Fluid → α) (c : Prop) [Decidable c] (a b : InitM)
    (ha : Keeps π a) (hb : Keeps π b) : Keeps π (if c then a else b) := by
  split_ifs
  · exact ha
  · exact hb

theorem keeps_N_RETURN {α : Type} (π : Fluid → α) (ok : Step → Bool) (st : Step)
    (eff : Fluid → Fluid) (he : ∀ s, π (eff s) = π s) : Keeps π (N_RETURN ok st eff) := by
  intro r
  rcases r with ⟨fluid, trace, commands, uploaders⟩
  unfold N_RETURN
  split_ifs
  · exact he fluid
  · rfl

theorem keeps_X_RETURN {α β : Type} (π : Fluid → α) (ok : Step → Bool) (st : Step)
    (store : Option β → Fluid → Fluid) (v : β) (he : ∀ o s, π (store o s) = π s) :
    Keeps π (X_RETURN ok st store v) := by
  intro r
  rcases r with ⟨fluid, trace, commands, uploaders⟩
  unfold X_RETURN
  split_ifs
  · exact he _ fluid
  · exact he _ fluid

theorem createPipelineLayouts_particleBuffer (ok : Step → Bool) :
    Keeps (fun s => s.m_particleBuffer) (createPipelineLayouts ok) := by
  unfold createPipelineLayouts
  repeat' first
    | apply keeps_block_cons
    | apply keeps_block_nil
    | apply keeps_X_RETURN
    | apply keeps_ite
    | (apply keeps_read; intro s)
    | (intro o s; rfl)

theorem createPipelines_particleBuffer (ok : Step → Bool) :
    Keeps (fun s => s.m_particleBuffer) (createPipelines ok) := by
  unfold createPipelines
  repeat' first
    | apply keeps_block_cons
    | apply keeps_block_nil
    | apply keeps_X_RETURN
    | apply keeps_N_RETURN
    | apply keeps_ite
    | (apply keeps_read; intro s)
    | (intro o s; rfl)
    | (intro s; rfl)

theorem createDescriptorTables_particleBuffer (E : TableEnum) (ok : Step → Bool) :
    Keeps (fun s => s.m_particleBuffer) (createDescriptorTables E ok) := by
  unfold createDescriptorTables
  repeat' first
    | apply keeps_block_cons
    | apply keeps_block_nil
    | apply keeps_X_RETURN
    | apply keeps_skip
    | apply keeps_ite
    | (apply keeps_read; intro s)
    | (intro o s; rfl)

/-- The three pipeline-building calls at the end of `Init` leave the particle
buffer as the upload left it. -/
theorem Init_tail_particleBuffer (E : TableEnum) (ok : Step → Bool) (r : InitRun) :
    (InitM.seq (createPipelineLayouts ok)
      (InitM.seq (createPipelines ok)
        (InitM.seq (createDescriptorTables E ok) InitM.skip)) r).2.fluid.m_particleBuffer
      = r.fluid.m_particleBuffer :=
  keeps_seq _ _ _ (createPipelineLayouts_particleBuffer ok)
    (keeps_seq _ _ _ (createPipelines_particleBuffer ok)
      (keeps_seq _ _ _ (createDescriptorTables_particleBuffer E ok) (keeps_skip _))) r

theorem created_numParticles (res : Resource) (s : Fluid) :
    (created res s).m_numParticles = s.m_numParticles := rfl

theorem created_gridSize (res : Resource) (s : Fluid) :
    (created res s).m_gridSize = s.m_gridSize := rfl

theorem createCbPerFrame_numParticles (s : Fluid) :
    (createCbPerFrame s).m_numParticles = s.m_numParticles := rfl

theorem createCbPerFrame_gridSize (s : Fluid) :
    (createCbPerFrame s).m_gridSize = s.m_gridSize := rfl

theorem Init_assign_numParticles (s : Fluid) (w h : Nat) (g : XMUINT3) (n : Nat) :
    (Init_assign s w h g n).m_numParticles = n := rfl

theorem Init_assign_gridSize (s : Fluid) (w h : Nat) (g : XMUINT3) (n : Nat) :
    (Init_assign s w h g n).m_gridSize = g := rfl

/-- When `Init` succeeds with a positive particle count, the particle buffer has
`numParticles` elements and, if the upload went through, holds the vector filled by
the initialisation loop. -/
theorem Init_particleBuffer (E : TableEnum) (ok : Step → Bool) (rand : Nat → Nat) (s : Fluid)
    (width height : Nat) (gridSize : XMUINT3) (n : Nat) (hn : 0 < n)
    (hs : (Init E ok rand s width height gridSize n).1 = true) :
    ((Init E ok rand s width height gridSize n).2.fluid.m_particleBuffer.map
        fun b => (b.numElements, b.data))
      = some (n, if ok (.Upload n) then some (initParticles rand n) else none) := by
  generalize hres : Init E ok rand s width height gridSize n = res at hs ⊢
  simp only [Init, Init_body, InitM.block, seq_N_RETURN, seq_ite, seq_skip, seq_read,
    seq_exec, seq_unchecked, seq_assoc, hn, gt_iff_lt, if_true, created_numParticles,
    createCbPerFrame_numParticles, Init_assign_numParticles, incompressBarrier,
    pushUploader, List.nil_append, List.cons_append, List.singleton_append] at hres
  split_ifs at hres <;> subst hres <;> first
    | (simp at hs; done)
    | (rw [Init_tail_particleBuffer]
       clear hs
       simp [createParticleBuffer, uploadParticles, created, incompressBarrier_fluid, *])


/-- C9: for every particle count `n > 0` and every sequence of values returned by
`rand()`, the vector built by `Init` has exactly `n` records, the `k`-th lifetime is
`(rand_k mod n) / 10000`, and every lifetime lies in `[0, n / 10000)`. When `Init`
succeeds and the upload goes through, this vector is the content of the particle
buffer, which has `n` elements. -/
theorem C9_particle_lifetimes (E : TableEnum) (ok : Step → Bool) (rand : Nat → Nat)
    (s : Fluid) (width height : Nat) (gridSize : XMUINT3) (n : Nat) (hn : 0 < n) :
    (initParticles rand n).length = n ∧
    (∀ k, k < n →
      ((initParticles rand n)[k]?).map (fun p => p.LifeTime)
        = some (((rand k % n : Nat) : ℚ) / 10000)) ∧
    (∀ p ∈ initParticles rand n, 0 ≤ p.LifeTime ∧ p.LifeTime < (n : ℚ) / 10000) ∧
    ((Init E ok rand s width height gridSize n).1 = true → ok (.Upload n) = true →
      ((Init E ok rand s width height gridSize n).2.fluid.m_particleBuffer.map
          fun b => (b.numElements, b.data))
        = some (n, some (initParticles rand n))) := by
  refine ⟨initParticles_length rand n, ?_, initParticles_lifeTime rand n hn, ?_⟩
  · intro k hk
    rw [initParticles_getElem? rand n k hk]
    rfl
  · intro hs hu
    rw [Init_particleBuffer E ok rand s width height gridSize n hn hs, if_pos hu]

/-- Two thousand particles: two thousand records, every lifetime in `[0, 0.2)`. -/
theorem C9_particle_lifetimes_witness :
    (0 : Nat) < 2000 ∧
    (initParticles (fun k => 7919 * k + 13) 2000).length = 2000 ∧
    ∀ p ∈ initParticles (fun k => 7919 * k + 13) 2000,
      0 ≤ p.LifeTime ∧ p.LifeTime < (2000 : ℚ) / 10000 :=
  have hn : (0 : Nat) < 2000 := by decide
  ⟨hn,
    (C9_particle_lifetimes TableEnum.consecutive (fun _ => true) (fun k => 7919 * k + 13)
      sampleParticles 1280 720 ⟨256, 256, 1⟩ 2000 hn).1,
    fun p hp => by
      have h := (C9_particle_lifetimes TableEnum.consecutive (fun _ => true)
        (fun k => 7919 * k + 13) sampleParticles 1280 720 ⟨256, 256, 1⟩ 2000 hn).2.2.1 p hp
      simpa using h⟩

/-! ## All-or-nothing initialisation -/

theorem allOrNothing_seq (ok : Step → Bool) (f g : InitM)
    (hf : AllOrNothing ok f) (hg : AllOrNothing ok g) : AllOrNothing ok (InitM.seq f g) := by
  intro r
  obtain ⟨n1, ht1, hs1, hf1⟩ := hf r
  rcases hfr : f r with ⟨b, r'⟩
  rw [hfr] at ht1 hs1 hf1
  cases b
  · refine ⟨n1, ?_, ?_, ?_⟩
    · simpa [InitM.seq, hfr] using ht1
    · intro h
      simp [InitM.seq, hfr] at h
    · intro _
      exact hf1 rfl
  · obtain ⟨n2, ht2, hs2, hf2⟩ := hg r'
    have hseq : InitM.seq f g r = g r' := by simp [InitM.seq, hfr]
    rw [hseq]
    refine ⟨n1 ++ n2, ?_, ?_, ?_⟩
    · rw [ht2]
      simp only at ht1
      rw [ht1, List.append_assoc]
    · intro h st hst hc
      rcases List.mem_append.mp hst with h1 | h2
      · exact hs1 rfl st h1 hc
      · exact hs2 h st h2 hc
    · intro h
      obtain ⟨pre, st, hnew, hc, hfail, hpre⟩ := hf2 h
      refine ⟨n1 ++ pre, st, ?_, hc, hfail, ?_⟩
      · rw [hnew, List.append_assoc]
      · intro x hx hxc
        rcases List.mem_append.mp hx with h1 | h2
        · exact hs1 rfl x h1 hxc
        · exact hpre x h2 hxc

theorem allOrNothing_skip (ok : Step → Bool) : AllOrNothing ok InitM.skip := by
  intro r
  exact ⟨[], by simp [InitM.skip], by simp, by simp [InitM.skip]⟩

theorem allOrNothing_block_nil (ok : Step → Bool) : AllOrNothing ok (InitM.block []) :=
  allOrNothing_skip ok

theorem allOrNothing_block_cons (ok : Step → Bool) (f : InitM) (fs : List InitM)
    (hf : AllOrNothing ok f) (hfs : AllOrNothing ok (InitM.block fs)) :
    AllOrNothing ok (InitM.block (f :: fs)) :=
  allOrNothing_seq ok f (InitM.block fs) hf hfs

theorem allOrNothing_read (ok : Step → Bool) (k : Fluid → InitM)
    (hk : ∀ s, AllOrNothing ok (k s)) : AllOrNothing ok (InitM.read k) :=
  fun r => hk r.fluid r

theorem allOrNothing_ite (ok : Step → Bool) (c : Prop) [Decidable c] (a b : InitM)
    (ha : AllOrNothing ok a) (hb : AllOrNothing ok b) :
    AllOrNothing ok (if c then a else b) := by
  split_ifs
  · exact ha
  · exact hb

theorem allOrNothing_N_RETURN (ok : Step → Bool) (st : Step) (eff : Fluid → Fluid)
    (hc : st.checked = true) : AllOrNothing ok (N_RETURN ok st eff) := by
  intro r
  rcases r with ⟨fluid, trace, commands, uploaders⟩
  by_cases hok : ok st = true
  · refine ⟨[st], by simp [N_RETURN, hok], ?_, by simp [N_RETURN, hok]⟩
    intro _ x hx _
    rw [List.mem_singleton.mp hx]
    exact hok
  · refine ⟨[st], by simp [N_RETURN, hok], by simp [N_RETURN, hok], ?_⟩
    intro _
    exact ⟨[], st, rfl, hc, by simpa using hok, by simp⟩

theorem allOrNothing_X_RETURN {α : Type} (ok : Step → Bool) (st : Step)
    (store : Option α → Fluid → Fluid) (v : α) (hc : st.checked = true) :
    AllOrNothing ok (X_RETURN ok st store v) := by
  intro r
  rcases r with ⟨fluid, trace, commands, uploaders⟩
  by_cases hok : ok st = true
  · refine ⟨[st], by simp [X_RETURN, hok], ?_, by simp [X_RETURN, hok]⟩
    intro _ x hx _
    rw [List.mem_singleton.mp hx]
    exact hok
  · refine ⟨[st], by simp [X_RETURN, hok], by simp [X_RETURN, hok], ?_⟩
    intro _
    exact ⟨[], st, rfl, hc, by simpa using hok, by simp⟩

theorem allOrNothing_unchecked (ok : Step → Bool) (st : Step) (eff : Fluid → Fluid)
    (hc : st.checked = false) : AllOrNothing ok (unchecked ok st eff) := by
  intro r
  rcases r with ⟨fluid, trace, commands, uploaders⟩
  refine ⟨[st], rfl, ?_, ?_⟩
  · intro _ x hx hxc
    rw [List.mem_singleton.mp hx, hc] at hxc
    simp at hxc
  · intro h
    simp [unchecked] at h

theorem createPipelineLayouts_allOrNothing (ok : Step → Bool) :
    AllOrNothing ok (createPipelineLayouts ok) := by
  unfold createPipelineLayouts
  repeat' first
    | apply allOrNothing_block_cons
    | apply allOrNothing_block_nil
    | apply allOrNothing_X_RETURN
    | apply allOrNothing_ite
    | (apply allOrNothing_read; intro s)
    | rfl

theorem createPipelines_allOrNothing (ok : Step → Bool) :
    AllOrNothing ok (createPipelines ok) := by
  unfold createPipelines
  repeat' first
    | apply allOrNothing_block_cons
    | apply allOrNothing_block_nil
    | apply allOrNothing_X_RETURN
    | apply allOrNothing_N_RETURN
    | apply allOrNothing_ite
    | (apply allOrNothing_read; intro s)
    | rfl

theorem createDescriptorTables_allOrNothing (E : TableEnum) (ok : Step → Bool) :
    AllOrNothing ok (createDescriptorTables E ok) := by
  unfold createDescriptorTables
  repeat' first
    | apply allOrNothing_block_cons
    | apply allOrNothing_block_nil
    | apply allOrNothing_X_RETURN
    | apply allOrNothing_skip
    | apply allOrNothing_ite
    | (apply allOrNothing_read; intro s)
    | rfl

theorem Init_body_allOrNothing (E : TableEnum) (ok : Step → Bool) (rand : Nat → Nat)
    (n : Nat) : AllOrNothing ok (Init_body E ok rand n) := by
  unfold Init_body
  repeat' first
    | apply createPipelineLayouts_allOrNothing
    | apply createPipelines_allOrNothing
    | apply createDescriptorTables_allOrNothing
    | apply allOrNothing_block_cons
    | apply allOrNothing_block_nil
    | apply allOrNothing_N_RETURN
    | apply allOrNothing_unchecked
    | apply allOrNothing_skip
    | apply allOrNothing_ite
    | (apply allOrNothing_read; intro s)
    | rfl


/-- All-or-nothing over the checked calls, for `Init` as a whole. -/
theorem Init_allOrNothing (E : TableEnum) (ok : Step → Bool) (rand : Nat → Nat) (s : Fluid)
    (width height : Nat) (gridSize : XMUINT3) (n : Nat) :
    ((Init E ok rand s width height gridSize n).1 = true ↔
      ∀ st ∈ (Init E ok rand s width height gridSize n).2.trace,
        st.checked = true → ok st = true) ∧
    ((Init E ok rand s width height gridSize n).1 = false →
      ∃ pre st, (Init E ok rand s width height gridSize n).2.trace = pre ++ [st] ∧
        st.checked = true ∧ ok st = false ∧ ∀ x ∈ pre, x.checked = true → ok x = true) := by
  obtain ⟨new, ht, hs, hf⟩ := Init_body_allOrNothing E ok rand n
    { fluid := Init_assign s width height gridSize n, trace := [], commands := [],
      uploaders := 0 }
  simp only [List.nil_append] at ht
  have ht' : (Init E ok rand s width height gridSize n).2.trace = new := ht
  have hs' : (Init E ok rand s width height gridSize n).1 = true →
      ∀ st ∈ new, st.checked = true → ok st = true := hs
  have hf' : (Init E ok rand s width height gridSize n).1 = false →
      ∃ pre st, new = pre ++ [st] ∧ st.checked = true ∧ ok st = false ∧
        ∀ x ∈ pre, x.checked = true → ok x = true := hf
  rw [ht']
  refine ⟨⟨hs', fun hall => ?_⟩, hf'⟩
  cases hb : (Init E ok rand s width height gridSize n).1
  · obtain ⟨pre, st, hnew, hc, hfail, _⟩ := hf' hb
    have := hall st (by rw [hnew]; simp) hc
    rw [hfail] at this
    exact absurd this (by simp)
  · rfl

/-- C10 (the code departs from the claim): with one particle on an 8x8x1 grid and an
oracle under which only the particle upload fails, `Init` returns true, goes on to
request every pipeline layout, shader, pipeline and binding table, and leaves the
particle buffer without contents. For every oracle `Init` is all-or-nothing over
the checked calls only: it returns true exactly when every call other than the
upload succeeded, and when it returns false the last call made is the first such
call that failed. -/
theorem C10_upload_result_ignored :
    uploadFails (.Upload 1) = false ∧
    (Init TableEnum.consecutive uploadFails (fun _ => 0) (Fluid.Fluid Fluid.blank) 1 1
      ⟨8, 8, 1⟩ 1).1 = true ∧
    (Init TableEnum.consecutive uploadFails (fun _ => 0) (Fluid.Fluid Fluid.blank) 1 1
      ⟨8, 8, 1⟩ 1).2.trace
      = [ .CreateTexture (.velocities 0), .CreateTexture (.colors 0),
          .CreateTexture (.velocities 1), .CreateTexture (.colors 1),
          .CreateTexture .incompress,
          .CreateConstantBuffer .cbPerFrame none,
          .CreateConstantBuffer .cbPerObject (some .Particle),
          .CreateStructuredBuffer 1, .Upload 1,
          .GetPipelineLayout .AdvectionLayout, .GetPipelineLayout .ProjectionLayout,
          .GetPipelineLayout .ParticleLayout,
          .CreateShader .CS 0 .CSAdvect, .GetPipeline .Advection,
          .CreateShader .CS 1 .CSProject2D, .GetPipeline .Projection,
          .CreateShader .VS 0 .VSParticle, .CreateShader .HS 0 .HSParticle,
          .CreateShader .DS 0 .DSParticle, .CreateShader .PS 0 .PSParticle,
          .GetPipeline .Particle,
          .GetCbvSrvUavTable [.UAV .particleBuffer],
          .GetCbvSrvUavTable (velocityDescriptors 0),
          .GetCbvSrvUavTable (velocityDescriptors 1),
          .GetCbvSrvUavTable [.UAV .incompress],
          .GetCbvSrvUavTable (colorDescriptors 0),
          .GetCbvSrvUavTable (colorDescriptors 1),
          .GetSamplerTable .LINEAR_MIRROR, .GetSamplerTable .LINEAR_CLAMP ] ∧
    ((Init TableEnum.consecutive uploadFails (fun _ => 0) (Fluid.Fluid Fluid.blank) 1 1
      ⟨8, 8, 1⟩ 1).2.fluid.m_particleBuffer.map fun b => (b.numElements, b.data))
      = some (1, none) ∧
    ∀ (E : TableEnum) (ok : Step → Bool) (rand : Nat → Nat) (s : Fluid)
      (width height : Nat) (gridSize : XMUINT3) (n : Nat),
      ((Init E ok rand s width height gridSize n).1 = true ↔
        ∀ st ∈ (Init E ok rand s width height gridSize n).2.trace,
          st.checked = true → ok st = true) ∧
      ((Init E ok rand s width height gridSize n).1 = false →
        ∃ pre st, (Init E ok rand s width height gridSize n).2.trace = pre ++ [st] ∧
          st.checked = true ∧ ok st = false ∧ ∀ x ∈ pre, x.checked = true → ok x = true) :=
  ⟨rfl, rfl, rfl, rfl, Init_allOrNothing⟩


/-! ## The time gate at exact equality -/

/-- A frame loop with zero elapsed time keeps an accumulator that sits exactly on
the nominal step, and keeps the stored elapsed time at 0. -/
theorem zeroFrameCalls_timeInterval (E : TableEnum) (fs : List (Nat × Nat)) :
    ∀ s : Fluid, s.m_timeInterval = nominalStep s.m_gridSize →
      (runCalls E s (zeroFrameCalls fs)).m_timeInterval = nominalStep s.m_gridSize ∧
      (runCalls E s (zeroFrameCalls fs)).m_gridSize = s.m_gridSize := by
  induction fs with
  | nil => intro s hs; exact ⟨hs, rfl⟩
  | cons f fs ih =>
    intro s hs
    obtain ⟨j, seed⟩ := f
    have hstep : runCalls E s (zeroFrameCalls ((j, seed) :: fs))
        = runCalls E (Render E (Simulate E (UpdateFrame s 0 j seed) j).fluid j).1
            (zeroFrameCalls fs) := rfl
    have hR : ∀ t : Fluid, (Render E t j).1.m_timeInterval = t.m_timeInterval ∧
        (Render E t j).1.m_gridSize = t.m_gridSize := by
      intro t
      unfold Render
      split_ifs <;> exact ⟨rfl, rfl⟩
    have hg : (Render E (Simulate E (UpdateFrame s 0 j seed) j).fluid j).1.m_gridSize
        = s.m_gridSize := by
      rw [(hR _).2, Simulate_gridSize, UpdateFrame_gridSize]
    have ht : (Render E (Simulate E (UpdateFrame s 0 j seed) j).fluid j).1.m_timeInterval
        = nominalStep s.m_gridSize := by
      rw [(hR _).1, Simulate_timeInterval, UpdateFrame_gridSize, UpdateFrame_timeInterval,
        UpdateFrame_timeStep, Simulate_timeGate_of_le _ _ _ hs.le, hs, add_zero]
    rw [hstep]
    have := ih _ (by rw [ht, hg])
    rw [hg] at this
    exact this

/-- C13: let `T` be the nominal step, `a` the stored accumulator and `e ≥ 0` the
elapsed time with `a + e = T`. Then `Simulate` computes the full step `T` and stores
`T`; the following call does not reset the accumulator (it stores `T + e'` for an
elapsed time `e'`); and after any number of frames with zero elapsed time the
accumulator is still `T` and a `Simulate` call with zero elapsed time again computes
the full step `T`. -/
theorem C13_exact_equality_bias (E : TableEnum) (s : Fluid) (e : ℚ) (j seed i : Nat)
    (he : 0 ≤ e) (h : s.m_timeInterval + e = nominalStep s.m_gridSize) :
    (Simulate E (UpdateFrame s e j seed) i).timeStep = nominalStep s.m_gridSize ∧
    (Simulate E (UpdateFrame s e j seed) i).fluid.m_timeInterval = nominalStep s.m_gridSize ∧
    (∀ (e' : ℚ) (j' seed' i' : Nat),
      (Simulate E (UpdateFrame (Simulate E (UpdateFrame s e j seed) i).fluid e' j' seed')
        i').fluid.m_timeInterval = nominalStep s.m_gridSize + e') ∧
    ∀ (fs : List (Nat × Nat)) (j' seed' i' : Nat),
      (runCalls E (Simulate E (UpdateFrame s e j seed) i).fluid
        (zeroFrameCalls fs)).m_timeInterval = nominalStep s.m_gridSize ∧
      (Simulate E (UpdateFrame (runCalls E (Simulate E (UpdateFrame s e j seed) i).fluid
        (zeroFrameCalls fs)) 0 j' seed') i').timeStep = nominalStep s.m_gridSize ∧
      (Simulate E (UpdateFrame (runCalls E (Simulate E (UpdateFrame s e j seed) i).fluid
        (zeroFrameCalls fs)) 0 j' seed') i').fluid.m_timeInterval
        = nominalStep s.m_gridSize := by
  have haT : s.m_timeInterval ≤ nominalStep s.m_gridSize := by linarith
  have h1 : (Simulate E (UpdateFrame s e j seed) i).fluid.m_timeInterval
      = nominalStep s.m_gridSize := by
    rw [Simulate_timeInterval, UpdateFrame_gridSize, UpdateFrame_timeInterval,
      UpdateFrame_timeStep, Simulate_timeGate_of_le _ _ _ haT]
    exact h
  have hg1 : (Simulate E (UpdateFrame s e j seed) i).fluid.m_gridSize = s.m_gridSize := rfl
  refine ⟨?_, h1, ?_, ?_⟩
  · rw [Simulate_timeStep, UpdateFrame_gridSize, UpdateFrame_timeInterval,
      UpdateFrame_timeStep, Simulate_timeGate_of_le _ _ _ haT, h]
    simp
  · intro e' j' seed' i'
    rw [Simulate_timeInterval, UpdateFrame_gridSize, UpdateFrame_timeInterval,
      UpdateFrame_timeStep, hg1, h1, Simulate_timeGate_of_le _ _ _ le_rfl]
  · intro fs j' seed' i'
    obtain ⟨ht, hgs⟩ := zeroFrameCalls_timeInterval E fs
      (Simulate E (UpdateFrame s e j seed) i).fluid (by rw [h1, hg1])
    rw [hg1] at ht hgs
    refine ⟨ht, ?_, ?_⟩
    · rw [Simulate_timeStep, UpdateFrame_gridSize, UpdateFrame_timeInterval,
        UpdateFrame_timeStep, hgs, ht, Simulate_timeGate_of_le _ _ _ le_rfl]
      simp
    · rw [Simulate_timeInterval, UpdateFrame_gridSize, UpdateFrame_timeInterval,
        UpdateFrame_timeStep, hgs, ht, Simulate_timeGate_of_le _ _ _ le_rfl, add_zero]

/-- An empty accumulator on a 64x64x64 grid, an elapsed time of exactly 1/60, then two
frames without elapsed time. -/
theorem C13_exact_equality_bias_witness :
    (0 : ℚ) ≤ 1 / 60 ∧
    sample3D.m_timeInterval + 1 / 60 = nominalStep sample3D.m_gridSize ∧
    (Simulate TableEnum.consecutive (UpdateFrame sample3D (1 / 60) 0 7) 0).timeStep = 1 / 60 ∧
    (Simulate TableEnum.consecutive
      (UpdateFrame (runCalls TableEnum.consecutive
        (Simulate TableEnum.consecutive (UpdateFrame sample3D (1 / 60) 0 7) 0).fluid
        (zeroFrameCalls [(1, 8), (2, 9)])) 0 0 10) 0).timeStep = 1 / 60 :=
  have he : (0 : ℚ) ≤ 1 / 60 := by norm_num
  have hT : nominalStep sample3D.m_gridSize = 1 / 60 := by
    norm_num [nominalStep, sample3D, Fluid.configured]
  have h : sample3D.m_timeInterval + 1 / 60 = nominalStep sample3D.m_gridSize := by
    rw [hT]
    norm_num [sample3D, Fluid.configured, Fluid.Fluid]
  ⟨he, h,
    ((C13_exact_equality_bias TableEnum.consecutive sample3D (1 / 60) 0 7 0 he h).1).trans hT,
    (((C13_exact_equality_bias TableEnum.consecutive sample3D (1 / 60) 0 7 0 he h).2.2.2
      [(1, 8), (2, 9)] 0 10 0).2.1).trans hT⟩


/-! ## Velocity ping-pong -/

theorem Simulate_velocityTablesAtDispatch (E : TableEnum) (s : Fluid) (i : Nat) :
    velocityTablesAtDispatch none (Simulate E s i).commands
      = [ s.m_srvUavTables E.SRV_UAV_TABLE_VECOLITY,
          s.m_srvUavTables E.SRV_UAV_TABLE_VECOLITY1 ] := by
  simp [Simulate, velocityTablesAtDispatch]

/-- The tracked states of the two velocity buffers at the advection dispatch. -/
theorem Simulate_advectStates_velocities (s : Fluid) :
    Simulate_advectStates s (.velocities 0) = ResourceState.NON_PIXEL_SHADER_RESOURCE ∧
    Simulate_advectStates s (.velocities 1) = ResourceState.UNORDERED_ACCESS := by
  simp only [Simulate_advectStates, SetBarrier]
  by_cases h0 : s.m_states (.velocities 0) = ResourceState.NON_PIXEL_SHADER_RESOURCE <;>
  by_cases h1 : s.m_states (.velocities 1) = ResourceState.UNORDERED_ACCESS <;>
  by_cases h2 : s.m_states (.colors s.m_frameParity) = ResourceState.UNORDERED_ACCESS <;>
  simp [h0, h1, h2, Function.update_apply]

/-- The tracked states of the two velocity buffers at the projection dispatch, which
are the states `Simulate` leaves behind. -/
theorem Simulate_states_velocities (E : TableEnum) (s : Fluid) (i : Nat) :
    (Simulate E s i).fluid.m_states (.velocities 0) = ResourceState.UNORDERED_ACCESS ∧
    (Simulate E s i).fluid.m_states (.velocities 1)
      = ResourceState.NON_PIXEL_SHADER_RESOURCE := by
  simp only [Simulate, SetBarrier]
  by_cases h0 : s.m_states (.velocities 0) = ResourceState.NON_PIXEL_SHADER_RESOURCE <;>
  by_cases h1 : s.m_states (.velocities 1) = ResourceState.UNORDERED_ACCESS <;>
  by_cases h2 : s.m_states (.colors s.m_frameParity) = ResourceState.UNORDERED_ACCESS <;>
  simp [h0, h1, h2, Function.update_apply, UNORDERED_ACCESS_ne_NON_PIXEL,
    NON_PIXEL_ne_UNORDERED_ACCESS, UNORDERED_ACCESS_ne_SHADER_RESOURCE]

set_option maxHeartbeats 2000000 in
/-- After a successful `createDescriptorTables`, the two velocity table slots hold
the tables built in the first loop, provided no later table reuses their slots. -/
theorem createDescriptorTables_velocity (E : TableEnum) (ok : Step → Bool) (r : InitRun)
    (hE : E.velocitySlotsFree) (h : (createDescriptorTables E ok r).1 = true)
    (p : Nat) (hp : p < 2) :
    (createDescriptorTables E ok r).2.fluid.m_srvUavTables (E.SRV_UAV_TABLE_VECOLITY + p)
      = some (.CbvSrvUav (velocityDescriptors p)) := by
  obtain ⟨e1, e2, e3, e4, e5⟩ := hE
  generalize h' : createDescriptorTables E ok r = res at h ⊢
  simp only [createDescriptorTables, InitM.block, seq_X_RETURN, seq_ite, seq_skip, seq_read,
    skip_apply] at h'
  by_cases hn : r.fluid.m_numParticles > 0 <;>
  simp only [hn, if_true, if_false] at h' <;>
  split_ifs at h' <;> subst h' <;> first
    | (simp at h; done)
    | (clear h
       interval_cases p <;>
       simp only [storeSrvUavTable, storeSamplerTable, Function.update_apply] <;>
       split_ifs <;> first | rfl | (exfalso; omega))


/-- C11: assume `SRV_UAV_TABLE_VECOLITY1 = SRV_UAV_TABLE_VECOLITY + 1` and that
velocity table `p` (`p` = 0 or 1) is (read view `velocities[p]`, write view
`velocities[(p+1) mod 2]`). Then in every `Simulate` call, whatever the parity, the
advection dispatch reads `velocities[0]` and writes `velocities[1]`, the projection
dispatch reads the buffer advection wrote and writes the buffer advection read, so
the velocity written last is `velocities[0]`; in each stage the two buffers differ,
the read buffer is tracked as shader-readable and the write buffer as writable.
The assumption on the tables holds after every successful `createDescriptorTables`
when no later table reuses the two velocity slots. -/
theorem C11_velocity_ping_pong (E : TableEnum) (s : Fluid) (i : Nat)
    (hE : E.SRV_UAV_TABLE_VECOLITY1 = E.SRV_UAV_TABLE_VECOLITY + 1)
    (hT : ∀ p, p < 2 →
      s.m_srvUavTables (E.SRV_UAV_TABLE_VECOLITY + p)
        = some (.CbvSrvUav [.SRV (.velocities p), .UAV (.velocities ((p + 1) % 2))])) :
    velocityTablesAtDispatch none (Simulate E s i).commands
      = [ s.m_srvUavTables E.SRV_UAV_TABLE_VECOLITY,
          s.m_srvUavTables E.SRV_UAV_TABLE_VECOLITY1 ] ∧
    readView (s.m_srvUavTables E.SRV_UAV_TABLE_VECOLITY) = some (.velocities 0) ∧
    writeView (s.m_srvUavTables E.SRV_UAV_TABLE_VECOLITY) = some (.velocities 1) ∧
    readView (s.m_srvUavTables E.SRV_UAV_TABLE_VECOLITY1)
      = writeView (s.m_srvUavTables E.SRV_UAV_TABLE_VECOLITY) ∧
    writeView (s.m_srvUavTables E.SRV_UAV_TABLE_VECOLITY1)
      = readView (s.m_srvUavTables E.SRV_UAV_TABLE_VECOLITY) ∧
    writeView (s.m_srvUavTables E.SRV_UAV_TABLE_VECOLITY1) = some (.velocities 0) ∧
    readView (s.m_srvUavTables E.SRV_UAV_TABLE_VECOLITY)
      ≠ writeView (s.m_srvUavTables E.SRV_UAV_TABLE_VECOLITY) ∧
    readView (s.m_srvUavTables E.SRV_UAV_TABLE_VECOLITY1)
      ≠ writeView (s.m_srvUavTables E.SRV_UAV_TABLE_VECOLITY1) ∧
    Simulate_advectStates s (.velocities 0) = ResourceState.NON_PIXEL_SHADER_RESOURCE ∧
    Simulate_advectStates s (.velocities 1) = ResourceState.UNORDERED_ACCESS ∧
    (Simulate E s i).fluid.m_states (.velocities 1)
      = ResourceState.NON_PIXEL_SHADER_RESOURCE ∧
    (Simulate E s i).fluid.m_states (.velocities 0) = ResourceState.UNORDERED_ACCESS ∧
    ∀ (ok : Step → Bool) (r : InitRun), E.velocitySlotsFree →
      (createDescriptorTables E ok r).1 = true → ∀ p, p < 2 →
        (createDescriptorTables E ok r).2.fluid.m_srvUavTables (E.SRV_UAV_TABLE_VECOLITY + p)
          = some (.CbvSrvUav [.SRV (.velocities p), .UAV (.velocities ((p + 1) % 2))]) := by
  have h0 : s.m_srvUavTables E.SRV_UAV_TABLE_VECOLITY
      = some (.CbvSrvUav [.SRV (.velocities 0), .UAV (.velocities 1)]) := hT 0 (by decide)
  have h1 : s.m_srvUavTables E.SRV_UAV_TABLE_VECOLITY1
      = some (.CbvSrvUav [.SRV (.velocities 1), .UAV (.velocities 0)]) := by
    rw [hE]
    exact hT 1 (by decide)
  refine ⟨Simulate_velocityTablesAtDispatch E s i, ?_, ?_, ?_, ?_, ?_, ?_, ?_,
    (Simulate_advectStates_velocities s).1, (Simulate_advectStates_velocities s).2,
    (Simulate_states_velocities E s i).2, (Simulate_states_velocities E s i).1, ?_⟩
  · rw [h0]; rfl
  · rw [h0]; rfl
  · rw [h0, h1]; rfl
  · rw [h0, h1]; rfl
  · rw [h1]; rfl
  · rw [h0]; simp [readView, writeView]
  · rw [h1]; simp [readView, writeView]
  · intro ok r hfree hs p hp
    exact createDescriptorTables_velocity E ok r hfree hs p hp

/-- The ping-pong on a simulator whose tables were built with consecutively numbered
enumerators. -/
theorem C11_velocity_ping_pong_witness :
    TableEnum.consecutive.SRV_UAV_TABLE_VECOLITY1
      = TableEnum.consecutive.SRV_UAV_TABLE_VECOLITY + 1 ∧
    sampleTables.m_srvUavTables (TableEnum.consecutive.SRV_UAV_TABLE_VECOLITY + 0)
      = some (.CbvSrvUav [.SRV (.velocities 0), .UAV (.velocities ((0 + 1) % 2))]) ∧
    sampleTables.m_srvUavTables (TableEnum.consecutive.SRV_UAV_TABLE_VECOLITY + 1)
      = some (.CbvSrvUav [.SRV (.velocities 1), .UAV (.velocities ((1 + 1) % 2))]) ∧
    readView (sampleTables.m_srvUavTables TableEnum.consecutive.SRV_UAV_TABLE_VECOLITY)
      = some (.velocities 0) ∧
    writeView (sampleTables.m_srvUavTables TableEnum.consecutive.SRV_UAV_TABLE_VECOLITY)
      = some (.velocities 1) ∧
    writeView (sampleTables.m_srvUavTables TableEnum.consecutive.SRV_UAV_TABLE_VECOLITY1)
      = some (.velocities 0) :=
  have hE : TableEnum.consecutive.SRV_UAV_TABLE_VECOLITY1
      = TableEnum.consecutive.SRV_UAV_TABLE_VECOLITY + 1 := rfl
  have hT : ∀ p, p < 2 →
      sampleTables.m_srvUavTables (TableEnum.consecutive.SRV_UAV_TABLE_VECOLITY + p)
        = some (.CbvSrvUav [.SRV (.velocities p), .UAV (.velocities ((p + 1) % 2))]) := by
    intro p hp
    interval_cases p <;> rfl
  ⟨hE, hT 0 (by decide), hT 1 (by decide),
    (C11_velocity_ping_pong TableEnum.consecutive sampleTables 0 hE hT).2.1,
    (C11_velocity_ping_pong TableEnum.consecutive sampleTables 0 hE hT).2.2.1,
    (C11_velocity_ping_pong TableEnum.consecutive sampleTables 0 hE hT).2.2.2.2.2.1⟩


/-! ## Optional resources -/

set_option maxHeartbeats 2000000 in
/-- A successful `Init` on a freshly constructed object reaches the three
pipeline-building calls with the optional buffers created as the mode demands and
with every table slot still empty. -/
theorem Init_reaches_pipelines (E : TableEnum) (ok : Step → Bool) (rand : Nat → Nat)
    (u : Fluid) (width height : Nat) (gridSize : XMUINT3) (n : Nat)
    (hs : (Init E ok rand (Fluid.Fluid u) width height gridSize n).1 = true) :
    ∃ r : InitRun,
      Init E ok rand (Fluid.Fluid u) width height gridSize n
        = InitM.seq (createPipelineLayouts ok)
            (InitM.seq (createPipelines ok)
              (InitM.seq (createDescriptorTables E ok) InitM.skip)) r ∧
      r.fluid.m_numParticles = n ∧ r.fluid.m_gridSize = gridSize ∧
      r.fluid.m_cbPerObject = Init_cbPerObject gridSize n ∧
      r.fluid.m_particleBuffer.isSome = decide (0 < n) ∧
      r.fluid.m_srvUavTables = (fun _ => none) ∧
      r.fluid.m_samplerTables = (fun _ => none) := by
  generalize hres : Init E ok rand (Fluid.Fluid u) width height gridSize n = res at hs ⊢
  by_cases hn : 0 < n <;> by_cases hz : 1 < gridSize.z <;>
  simp only [Init, Init_body, InitM.block, seq_N_RETURN, seq_ite, seq_skip, seq_read,
    seq_exec, seq_unchecked, seq_assoc, hn, hz, gt_iff_lt, if_true, if_false,
    created_numParticles, createCbPerFrame_numParticles, Init_assign_numParticles,
    created_gridSize, createCbPerFrame_gridSize, Init_assign_gridSize,
    incompressBarrier, pushUploader, List.nil_append, List.cons_append,
    List.singleton_append] at hres <;>
  split_ifs at hres <;> subst hres <;> first
    | (simp at hs; done)
    | (refine ⟨_, rfl, ?_⟩
       clear hs
       simp [Init_cbPerObject, hn, hz, createParticleBuffer, uploadParticles, created,
         incompressBarrier_fluid, createCbPerObject, createCbPerFrame, Init_assign,
         Fluid.Fluid])


theorem createPipelineLayouts_keeps (ok : Step → Bool) :
    Keeps (fun s => (s.m_numParticles, s.m_gridSize, s.m_cbPerObject, s.m_particleBuffer,
      s.m_srvUavTables, s.m_samplerTables)) (createPipelineLayouts ok) := by
  unfold createPipelineLayouts
  repeat' first
    | apply keeps_block_cons
    | apply keeps_block_nil
    | apply keeps_X_RETURN
    | apply keeps_ite
    | (apply keeps_read; intro s)
    | (intro o s; rfl)

theorem createPipelines_keeps (ok : Step → Bool) :
    Keeps (fun s => (s.m_numParticles, s.m_gridSize, s.m_cbPerObject, s.m_particleBuffer,
      s.m_srvUavTables, s.m_samplerTables)) (createPipelines ok) := by
  unfold createPipelines
  repeat' first
    | apply keeps_block_cons
    | apply keeps_block_nil
    | apply keeps_X_RETURN
    | apply keeps_N_RETURN
    | apply keeps_ite
    | (apply keeps_read; intro s)
    | (intro o s; rfl)
    | (intro s; rfl)

theorem createDescriptorTables_keeps (E : TableEnum) (ok : Step → Bool) :
    Keeps (fun s => (s.m_numParticles, s.m_gridSize, s.m_cbPerObject, s.m_particleBuffer))
      (createDescriptorTables E ok) := by
  unfold createDescriptorTables
  repeat' first
    | apply keeps_block_cons
    | apply keeps_block_nil
    | apply keeps_X_RETURN
    | apply keeps_skip
    | apply keeps_ite
    | (apply keeps_read; intro s)
    | (intro o s; rfl)

theorem keeps_comp {α β : Type} (π : Fluid → α) (g : α → β) (f : InitM) (h : Keeps π f) :
    Keeps (fun s => g (π s)) f := fun r => congrArg g (h r)

theorem maintains_seq (P : Fluid → Prop) (f g : InitM) (hf : Maintains P f)
    (hg : Maintains P g) : Maintains P (InitM.seq f g) := by
  intro r hr
  have h1 := hf r hr
  unfold InitM.seq
  rcases hfr : f r with ⟨b, r'⟩
  rw [hfr] at h1
  cases b
  · exact h1
  · exact hg r' h1

theorem maintains_skip (P : Fluid → Prop) : Maintains P InitM.skip := fun _ h => h

theorem maintains_of_keeps {α : Type} (P : Fluid → Prop) (π : Fluid → α) (f : InitM)
    (hP : ∀ s t, π s = π t → P t → P s) (h : Keeps π f) : Maintains P f :=
  fun r hr => hP _ _ (h r) hr

/-- Without particles, `createDescriptorTables` stores no table with a view of the
particle buffer, whether it succeeds or stops early. -/
theorem createDescriptorTables_noParticleViews (E : TableEnum) (ok : Step → Bool) :
    Maintains (fun s => s.m_numParticles = 0 ∧ NoParticleViews s)
      (createDescriptorTables E ok) := by
  intro r hr
  obtain ⟨hn, hP, hS⟩ := hr
  have hn' : ¬ r.fluid.m_numParticles > 0 := by omega
  have hk := createDescriptorTables_keeps E ok r
  refine ⟨(congrArg Prod.fst hk).trans hn, ?_⟩
  clear hk
  generalize h' : createDescriptorTables E ok r = res
  simp only [createDescriptorTables, InitM.block, seq_X_RETURN, seq_ite, seq_skip, seq_read,
    skip_apply, hn', if_false] at h'
  split_ifs at h' <;> subst h' <;> constructor <;> intro idx <;>
  simp only [storeSrvUavTable, storeSamplerTable, Function.update_apply] <;>
  first
    | exact hP idx
    | exact hS idx
    | (split_ifs <;> first
        | rfl
        | exact hP idx
        | exact hS idx)


/-- What a successful `Init` on a freshly constructed object leaves behind. -/
theorem Init_success_state (E : TableEnum) (ok : Step → Bool) (rand : Nat → Nat)
    (u : Fluid) (width height : Nat) (gridSize : XMUINT3) (n : Nat)
    (hs : (Init E ok rand (Fluid.Fluid u) width height gridSize n).1 = true) :
    (Init E ok rand (Fluid.Fluid u) width height gridSize n).2.fluid.m_numParticles = n ∧
    (Init E ok rand (Fluid.Fluid u) width height gridSize n).2.fluid.m_gridSize = gridSize ∧
    (Init E ok rand (Fluid.Fluid u) width height gridSize n).2.fluid.m_cbPerObject
      = Init_cbPerObject gridSize n ∧
    (Init E ok rand (Fluid.Fluid u) width height gridSize n).2.fluid.m_particleBuffer.isSome
      = decide (0 < n) ∧
    (n = 0 →
      NoParticleViews (Init E ok rand (Fluid.Fluid u) width height gridSize n).2.fluid) := by
  obtain ⟨r, hr, h1, h2, h3, h4, h5, h6⟩ :=
    Init_reaches_pipelines E ok rand u width height gridSize n hs
  rw [hr]
  have hk := keeps_seq _ _ _
    (keeps_comp _ (fun t => (t.1, t.2.1, t.2.2.1, t.2.2.2.1)) _ (createPipelineLayouts_keeps ok))
    (keeps_seq _ _ _
      (keeps_comp _ (fun t => (t.1, t.2.1, t.2.2.1, t.2.2.2.1)) _ (createPipelines_keeps ok))
      (keeps_seq _ _ _ (createDescriptorTables_keeps E ok) (keeps_skip _))) r
  simp only [Prod.mk.injEq] at hk
  obtain ⟨k1, k2, k3, k4⟩ := hk
  refine ⟨k1.trans h1, k2.trans h2, k3.trans h3, by rw [k4]; exact h4, ?_⟩
  intro hn
  have hP : ∀ s t : Fluid,
      (s.m_numParticles, s.m_gridSize, s.m_cbPerObject, s.m_particleBuffer,
        s.m_srvUavTables, s.m_samplerTables)
        = (t.m_numParticles, t.m_gridSize, t.m_cbPerObject, t.m_particleBuffer,
          t.m_srvUavTables, t.m_samplerTables) →
      (t.m_numParticles = 0 ∧ NoParticleViews t) → (s.m_numParticles = 0 ∧ NoParticleViews s) := by
    intro s t hst ht
    simp only [Prod.mk.injEq] at hst
    obtain ⟨e1, _, _, _, e5, e6⟩ := hst
    exact ⟨e1.trans ht.1, fun idx => by rw [e5]; exact ht.2.1 idx,
      fun idx => by rw [e6]; exact ht.2.2 idx⟩
  have hm := maintains_seq _ _ _
    (maintains_of_keeps _ _ _ hP (createPipelineLayouts_keeps ok))
    (maintains_seq _ _ _
      (maintains_of_keeps _ _ _ hP (createPipelines_keeps ok))
      (maintains_seq _ _ _ (createDescriptorTables_noParticleViews E ok)
        (maintains_skip _))) r
  refine (hm ⟨h1.trans hn, ?_, ?_⟩).2
  · intro idx; rw [h5]; rfl
  · intro idx; rw [h6]; rfl

/-- The per-frame calls never change the shape of the object. -/
theorem runCall_shape (E : TableEnum) (s : Fluid) (c : Call) :
    shape (runCall E s c) = shape s := by
  cases c with
  | UpdateFrame t i seed =>
    simp only [runCall, shape, UpdateFrame]
    cases UpdateFrame_perObjectAccess s <;> cases s.m_cbPerObject <;> rfl
  | Simulate i => rfl
  | Render i =>
    simp only [runCall, Render]
    split_ifs <;> rfl

theorem runCalls_shape (E : TableEnum) (calls : List Call) :
    ∀ s : Fluid, shape (runCalls E s calls) = shape s := by
  induction calls with
  | nil => intro s; rfl
  | cons c cs ih =>
    intro s
    have step : runCalls E s (c :: cs) = runCalls E (runCall E s c) cs := rfl
    rw [step, ih, runCall_shape]

/-- `UpdateFrame` writes the per-object buffer through the layout it was created for,
so written slots stay well typed along any sequence of per-frame calls. -/
theorem runCalls_written (E : TableEnum) (calls : List Call) :
    ∀ s : Fluid,
      UpdateFrame_perObjectAccess s = s.m_cbPerObject.map (fun b => b.layout) →
      WrittenWellTyped s → WrittenWellTyped (runCalls E s calls) := by
  induction calls with
  | nil => intro s _ hw; exact hw
  | cons c cs ih =>
    intro s ha hw
    have step : runCalls E s (c :: cs) = runCalls E (runCall E s c) cs := rfl
    rw [step]
    have hsh := runCall_shape E s c
    have ha' : UpdateFrame_perObjectAccess (runCall E s c)
        = (runCall E s c).m_cbPerObject.map (fun b => b.layout) := by
      simp only [shape, Prod.mk.injEq] at hsh
      obtain ⟨e1, e2, e3, _⟩ := hsh
      unfold UpdateFrame_perObjectAccess at ha ⊢
      rw [e1, e2, e3]
      exact ha
    refine ih _ ha' ?_
    cases c with
    | UpdateFrame t i seed =>
      intro b hb slot l hl
      simp only [runCall, UpdateFrame] at hb
      rcases hacc : UpdateFrame_perObjectAccess s with _ | lay
      · rw [hacc] at hb
        exact hw b hb slot l hl
      · rw [hacc] at hb ha
        rcases hcb : s.m_cbPerObject with _ | b0
        · rw [hcb] at hb
          simp at hb
        · rw [hcb] at hb ha
          simp only [Option.map_some', Option.some.injEq] at hb ha
          subst hb
          simp only [Function.update_apply] at hl
          split_ifs at hl with hslot
          · simp only [Option.some.injEq] at hl
            rw [← hl, ha]
          · exact hw b0 hcb slot l hl
    | Simulate i => exact hw
    | Render i =>
      intro b hb slot l hl
      have : (runCall E s (.Render i)).m_cbPerObject = s.m_cbPerObject := by
        simp only [runCall, Render]
        split_ifs <;> rfl
      rw [this] at hb
      exact hw b hb slot l hl


theorem Init_cbPerObject_layout (gridSize : XMUINT3) (n : Nat) :
    (Init_cbPerObject gridSize n).map (fun b => b.layout)
      = if 0 < n then some .Particle else if 1 < gridSize.z then some .Grid3D else none := by
  unfold Init_cbPerObject
  split_ifs <;> rfl

theorem Render_pass_perObjectLayout (s : Fluid) :
    (Render_pass s).perObjectLayout = UpdateFrame_perObjectAccess s := by
  unfold Render_pass UpdateFrame_perObjectAccess
  split_ifs <;> rfl

theorem Render_referencesPerObject (E : TableEnum) (s : Fluid) (i : Nat) :
    referencesPerObject (Render E s i).2 = (Render_pass s).perObjectLayout.isSome := by
  unfold Render Render_pass
  split_ifs <;>
  simp [renderParticles, rayCast, visualizeColor, referencesPerObject,
    RenderPass.perObjectLayout]

theorem Simulate_referencesPerObject (E : TableEnum) (s : Fluid) (i : Nat) :
    referencesPerObject (Simulate E s i).commands = false := by
  simp [Simulate, referencesPerObject]

/-- Every table a presentation pass binds is taken from one of the two table arrays. -/
theorem Render_boundGraphicsTables (E : TableEnum) (s : Fluid) (i k : Nat)
    (tbl : Option DescriptorTable) (h : (k, tbl) ∈ boundGraphicsTables (Render E s i).2) :
    ∃ idx, tbl = s.m_srvUavTables idx ∨ tbl = s.m_samplerTables idx := by
  unfold Render at h
  split_ifs at h <;>
  simp [renderParticles, rayCast, visualizeColor, boundGraphicsTables] at h
  · rcases h with ⟨_, rfl⟩ | ⟨_, rfl⟩ | ⟨_, rfl⟩
    · exact ⟨_, Or.inl rfl⟩
    · exact ⟨_, Or.inl rfl⟩
    · exact ⟨_, Or.inr rfl⟩
  · rcases h with ⟨_, rfl⟩ | ⟨_, rfl⟩
    · exact ⟨_, Or.inl rfl⟩
    · exact ⟨_, Or.inr rfl⟩
  · rcases h with ⟨_, rfl⟩ | ⟨_, rfl⟩
    · exact ⟨_, Or.inl rfl⟩
    · exact ⟨_, Or.inr rfl⟩

/-- Every table `Simulate` binds is taken from one of the two table arrays. -/
theorem Simulate_boundTables_source (E : TableEnum) (s : Fluid) (i k : Nat)
    (tbl : Option DescriptorTable)
    (h : (k, tbl) ∈ boundComputeTables (Simulate E s i).commands) :
    ∃ idx, tbl = s.m_srvUavTables idx ∨ tbl = s.m_samplerTables idx := by
  rw [Simulate_boundComputeTables] at h
  simp at h
  rcases h with ⟨_, rfl⟩ | ⟨_, rfl⟩ | ⟨_, rfl⟩ | ⟨_, rfl⟩
  · exact ⟨_, Or.inl rfl⟩
  · exact ⟨_, Or.inr rfl⟩
  · exact ⟨_, Or.inl rfl⟩
  · exact ⟨_, Or.inl rfl⟩

/-- `createDescriptorTables` takes a view of the particle buffer only when the
particle count is positive, in every outcome. -/
theorem createDescriptorTables_mentions (E : TableEnum) (ok : Step → Bool) (s : Fluid) :
    ∀ st ∈ (createDescriptorTables E ok (InitRun.start s)).2.trace,
      st.mentionsParticleBuffer = true → 0 < s.m_numParticles := by
  by_cases hn : s.m_numParticles > 0
  · intro _ _ _
    exact hn
  · generalize h' : createDescriptorTables E ok (InitRun.start s) = res
    simp only [createDescriptorTables, InitM.block, seq_X_RETURN, seq_ite, seq_skip, seq_read,
      skip_apply, InitRun.start, hn, if_false, List.nil_append, List.cons_append,
      List.singleton_append] at h'
    split_ifs at h' <;> subst h' <;>
    simp [Step.mentionsParticleBuffer, viewsParticleBuffer, velocityDescriptors,
      colorDescriptors]


/-- C12: after the constructor and a successful `Init`, and then any sequence of
per-frame calls: the per-object buffer exists with the particle layout when
`numParticles > 0`, with the volumetric layout when `numParticles = 0` and `z > 1`,
and does not exist otherwise; `UpdateFrame` writes it, and the presentation pass
binds it, exactly when it exists and through the layout it was created for;
`Simulate` never binds it; the particle buffer exists iff `numParticles > 0`, the
particle pass is taken iff `numParticles > 0`, and a table holding a view of the
particle buffer is requested by `createDescriptorTables` or bound by `Simulate` or
`Render` only when `numParticles > 0`. In 2D mode nothing touches the per-object
buffer. -/
theorem C12_optional_resources (E : TableEnum) (ok : Step → Bool) (rand : Nat → Nat)
    (u : Fluid) (width height : Nat) (gridSize : XMUINT3) (n : Nat)
    (hs : (Init E ok rand (Fluid.Fluid u) width height gridSize n).1 = true)
    (calls : List Call) (i : Nat) :
    ((afterInit E ok rand u width height gridSize n calls).m_cbPerObject.map
        (fun b => b.layout)
      = if 0 < n then some .Particle else if 1 < gridSize.z then some .Grid3D else none) ∧
    (afterInit E ok rand u width height gridSize n calls).m_particleBuffer.isSome
      = decide (0 < n) ∧
    UpdateFrame_perObjectAccess (afterInit E ok rand u width height gridSize n calls)
      = (afterInit E ok rand u width height gridSize n calls).m_cbPerObject.map
          (fun b => b.layout) ∧
    (Render_pass (afterInit E ok rand u width height gridSize n calls)).perObjectLayout
      = (afterInit E ok rand u width height gridSize n calls).m_cbPerObject.map
          (fun b => b.layout) ∧
    referencesPerObject (Render E (afterInit E ok rand u width height gridSize n calls) i).2
      = (afterInit E ok rand u width height gridSize n calls).m_cbPerObject.isSome ∧
    referencesPerObject
      (Simulate E (afterInit E ok rand u width height gridSize n calls) i).commands = false ∧
    WrittenWellTyped (afterInit E ok rand u width height gridSize n calls) ∧
    (Render_pass (afterInit E ok rand u width height gridSize n calls) = .renderParticles
      ↔ 0 < n) ∧
    (∀ k tbl, (k, tbl) ∈ boundGraphicsTables
        (Render E (afterInit E ok rand u width height gridSize n calls) i).2 →
      mentionsParticleBuffer tbl = true → 0 < n) ∧
    (∀ k tbl, (k, tbl) ∈ boundComputeTables
        (Simulate E (afterInit E ok rand u width height gridSize n calls) i).commands →
      mentionsParticleBuffer tbl = true → 0 < n) ∧
    (∀ s : Fluid, ∀ st ∈ (createDescriptorTables E ok (InitRun.start s)).2.trace,
      st.mentionsParticleBuffer = true → 0 < s.m_numParticles) ∧
    (n = 0 → gridSize.z ≤ 1 →
      (afterInit E ok rand u width height gridSize n calls).m_cbPerObject.isSome = false ∧
      UpdateFrame_perObjectAccess (afterInit E ok rand u width height gridSize n calls)
        = none ∧
      referencesPerObject
        (Render E (afterInit E ok rand u width height gridSize n calls) i).2 = false) := by
  obtain ⟨i1, i2, i3, i4, i5⟩ := Init_success_state E ok rand u width height gridSize n hs
  have hsh := runCalls_shape E calls
    (Init E ok rand (Fluid.Fluid u) width height gridSize n).2.fluid
  have hsh' : shape (afterInit E ok rand u width height gridSize n calls)
      = shape (Init E ok rand (Fluid.Fluid u) width height gridSize n).2.fluid := hsh
  simp only [shape, Prod.mk.injEq] at hsh'
  obtain ⟨e1, e2, e3, e4, e5, e6⟩ := hsh'
  rw [i1] at e1
  rw [i2] at e2
  rw [i3, Init_cbPerObject_layout] at e3
  rw [i4] at e4
  have hacc : UpdateFrame_perObjectAccess (afterInit E ok rand u width height gridSize n calls)
      = (afterInit E ok rand u width height gridSize n calls).m_cbPerObject.map
          (fun b => b.layout) := by
    rw [e3]
    unfold UpdateFrame_perObjectAccess
    rw [e1, e2]
  have hsome : (afterInit E ok rand u width height gridSize n calls).m_cbPerObject.isSome
      = ((afterInit E ok rand u width height gridSize n calls).m_cbPerObject.map
          (fun b => b.layout)).isSome := by
    cases (afterInit E ok rand u width height gridSize n calls).m_cbPerObject <;> rfl
  have hw0 : WrittenWellTyped
      (Init E ok rand (Fluid.Fluid u) width height gridSize n).2.fluid := by
    intro b hb slot l hl
    rw [i3] at hb
    unfold Init_cbPerObject at hb
    split_ifs at hb <;> simp only [Option.some.injEq] at hb
    · subst hb; simp at hl
    · subst hb; simp at hl
  have hacc0 : UpdateFrame_perObjectAccess
      (Init E ok rand (Fluid.Fluid u) width height gridSize n).2.fluid
      = (Init E ok rand (Fluid.Fluid u) width height gridSize n).2.fluid.m_cbPerObject.map
          (fun b => b.layout) := by
    rw [i3, Init_cbPerObject_layout]
    unfold UpdateFrame_perObjectAccess
    rw [i1, i2]
  have hnov : n = 0 → ∀ tbl : Option DescriptorTable,
      (∃ idx, tbl = (afterInit E ok rand u width height gridSize n calls).m_srvUavTables idx ∨
        tbl = (afterInit E ok rand u width height gridSize n calls).m_samplerTables idx) →
      mentionsParticleBuffer tbl = false := by
    intro hn tbl htbl
    obtain ⟨hP, hS⟩ := i5 hn
    obtain ⟨idx, h | h⟩ := htbl
    · rw [h, e5]; exact hP idx
    · rw [h, e6]; exact hS idx
  refine ⟨e3, e4, hacc, ?_, ?_, Simulate_referencesPerObject E _ i,
    runCalls_written E calls _ hacc0 hw0, ?_, ?_, ?_, createDescriptorTables_mentions E ok,
    ?_⟩
  · rw [Render_pass_perObjectLayout, hacc]
  · rw [Render_referencesPerObject, Render_pass_perObjectLayout, hacc, hsome]
  · unfold Render_pass
    rw [e1]
    split_ifs with h1 h2 <;> simp [h1]
  · intro k tbl hmem hm
    by_contra hn
    have := hnov (by omega) tbl (Render_boundGraphicsTables E _ i k tbl hmem)
    rw [this] at hm
    exact absurd hm (by simp)
  · intro k tbl hmem hm
    by_contra hn
    have := hnov (by omega) tbl (Simulate_boundTables_source E _ i k tbl hmem)
    rw [this] at hm
    exact absurd hm (by simp)
  · intro hn hz
    have hnone : (afterInit E ok rand u width height gridSize n calls).m_cbPerObject.map
        (fun b => b.layout) = none := by
      rw [e3, if_neg (by omega), if_neg (by omega)]
    refine ⟨?_, ?_, ?_⟩
    · rw [hsome, hnone]; rfl
    · rw [hacc, hnone]
    · rw [Render_referencesPerObject, Render_pass_perObjectLayout, hacc, hnone]; rfl

/-- A 256x256x1 grid without particles: `Init` succeeds when every call succeeds, and
along a three-frame loop the per-object buffer does not exist and is never bound. -/
theorem C12_optional_resources_witness :
    (Init TableEnum.consecutive (fun _ => true) (fun _ => 0) (Fluid.Fluid Fluid.blank)
      1280 720 ⟨256, 256, 1⟩ 0).1 = true ∧
    (afterInit TableEnum.consecutive (fun _ => true) (fun _ => 0) Fluid.blank
      1280 720 ⟨256, 256, 1⟩ 0 sampleCalls).m_cbPerObject.isSome = false ∧
    UpdateFrame_perObjectAccess (afterInit TableEnum.consecutive (fun _ => true) (fun _ => 0)
      Fluid.blank 1280 720 ⟨256, 256, 1⟩ 0 sampleCalls) = none ∧
    referencesPerObject (Render TableEnum.consecutive
      (afterInit TableEnum.consecutive (fun _ => true) (fun _ => 0) Fluid.blank
        1280 720 ⟨256, 256, 1⟩ 0 sampleCalls) 0).2 = false ∧
    (afterInit TableEnum.consecutive (fun _ => true) (fun _ => 0) Fluid.blank
      1280 720 ⟨256, 256, 1⟩ 0 sampleCalls).m_particleBuffer.isSome = decide (0 < 0) :=
  have hs : (Init TableEnum.consecutive (fun _ => true) (fun _ => 0) (Fluid.Fluid Fluid.blank)
      1280 720 ⟨256, 256, 1⟩ 0).1 = true := rfl
  have hz : (⟨256, 256, 1⟩ : XMUINT3).z ≤ 1 := by decide
  ⟨hs,
    ((C12_optional_resources TableEnum.consecutive (fun _ => true) (fun _ => 0) Fluid.blank
      1280 720 ⟨256, 256, 1⟩ 0 hs sampleCalls 0).2.2.2.2.2.2.2.2.2.2.2 rfl hz).1,
    ((C12_optional_resources TableEnum.consecutive (fun _ => true) (fun _ => 0) Fluid.blank
      1280 720 ⟨256, 256, 1⟩ 0 hs sampleCalls 0).2.2.2.2.2.2.2.2.2.2.2 rfl hz).2.1,
    ((C12_optional_resources TableEnum.consecutive (fun _ => true) (fun _ => 0) Fluid.blank
      1280 720 ⟨256, 256, 1⟩ 0 hs sampleCalls 0).2.2.2.2.2.2.2.2.2.2.2 rfl hz).2.2,
    (C12_optional_resources TableEnum.consecutive (fun _ => true) (fun _ => 0) Fluid.blank
      1280 720 ⟨256, 256, 1⟩ 0 hs sampleCalls 0).2.1⟩

end FluidX12
